import Mathlib

/-! watgbridge: hub-to-peer routing and the revoke workflow.

A shallow embedding of the Telegram-side handlers of `src/telegram/handlers.go`.

* Go strings are Lean strings; `strings.Split`, `strings.HasSuffix` and
  `strings.HasPrefix` are modelled on the character lists.
* A Go `error` is an `Option String`: `none` is `nil`, `some m` is an error
  whose `Error()` text is `m`.
* Everything a handler calls outside `handlers.go` (the `database` and `utils`
  packages, the WhatsApp client, the Telegram bot) is a field of `Env`: the
  value the call returns is given by the field, and the call itself is
  recorded, in order, as an `Effect` of the handler's `Outcome`.
* The WhatsApp address type `waTypes.JID` is a type parameter `J`.
-/

namespace Watg

/-- Go `error`: `none` is `nil`. -/
abbrev GoError := Option String

namespace strings

/-- Fields of a character list separated by the character `sep`. -/
def splitChars (sep : Char) : List Char → List (List Char)
  | [] => [[]]
  | c :: cs =>
    if c = sep then [] :: splitChars sep cs
    else
      match splitChars sep cs with
      | [] => [[c]]
      | h :: t => (c :: h) :: t

/-- Go `strings.Split(s, sep)` for a one-character separator. -/
def Split (s : String) (sep : Char) : List String :=
  (splitChars sep s.toList).map String.mk

/-- Go `strings.HasSuffix(s, suffix)`. -/
def HasSuffix (s suffix : String) : Bool :=
  suffix.toList.isSuffixOf s.toList

/-- Go `strings.HasPrefix(s, pre)`. -/
def HasPrefix (s pre : String) : Bool :=
  pre.toList.isPrefixOf s.toList

end strings

/-- The fields of `c.EffectiveMessage.ReplyToMessage` the handlers read.
`ForumTopicCreated` and `ForumTopicClosed` are `true` when the Go pointer is
not `nil`. -/
structure RepliedMessage where
  MessageId : Int
  MessageThreadId : Int
  ForumTopicCreated : Bool
  ForumTopicClosed : Bool
  deriving DecidableEq, Repr

/-- The fields of `gotgbot.Message` the handlers read. -/
structure Message where
  MessageId : Int
  MessageThreadId : Int
  IsTopicMessage : Bool
  ReplyToMessage : Option RepliedMessage
  deriving DecidableEq, Repr

/-- The fields of `ext.Context` the handlers read: `c.EffectiveChat.Id`,
`c.EffectiveMessage`, `c.CallbackQuery.Data` and `c.Args()`. -/
structure Context where
  EffectiveChatId : Int
  EffectiveMessage : Message
  CallbackData : String
  Args : List String
  deriving DecidableEq, Repr

/-- The reply markup handed to `EditMessageText`: either the result of
`utils.TgMakeRevokeKeyboard(msgId, chatId, confirm)`, recorded by its three
arguments, or the literal markup with no buttons. -/
inductive Keyboard where
  | revoke (msgId chatId : String) (confirm : Bool)
  | empty
  deriving DecidableEq, Repr

/-- One call made by a handler to a collaborator, with the arguments passed. -/
inductive Effect (J : Type) where
  | MsgIdGetWaFromTg (chatId msgId threadId : Int)
  | ChatThreadGetWaFromTg (chatId threadId : Int)
  | MsgIdDeletePair (chatId msgId : Int)
  | TgReplyWithErrorByContext (text err : String)
  | TgReplyTextByContext (text : String)
  | TgSendToWhatsApp (msgToForward : Message) (msgToReplyTo : Option RepliedMessage)
      (waChatJID : J) (participantID stanzaID : String) (isReply : Bool)
  | SendRevoke (chatJid : J) (msgId : String)
  | EditMessageText (text : String) (chatId msgId : Int) (markup : Keyboard)
  | Answer (text : String) (showAlert : Bool) (cacheTime : Int)
  | ChatThreadGetTgFromWa (waChatId : String) (tgChatId : Int)
  | ChatThreadAddNewPair (waChatId : String) (tgChatId tgThreadId : Int)
  | ChatThreadGetAllPairs (tgChatId : Int)
  | MsgIdDropAllPairs
  | ContactNameBulkAddOrUpdate (contacts : List (J × String))
  | WaFuzzyFindContacts (query : String)
  | WaGetGroupName (jid : J)
  | WaGetContactName (jid : J)
  | TgSendToWhatsAppForward (msgToForward : RepliedMessage) (waChatJID : J)
      (participantID stanzaID : String) (isReply : Bool)
  | GetJoinedGroups
  | GetGroupInfo (jid : J)
  | FetchAppState
  | GetAllContacts
  | Disconnect
  | Connect
  | JoinGroupWithLink (inviteLink : String)
  | GetProfilePictureInfo (jid : J)
  | SendPhoto (chatId : Int) (photo : List Nat) (replyToMessageId : Int) (messageThreadId : Int)
  | EditForumTopic (chatId threadId : Int) (name : String)
  | Reply (text : String)
  | HttpGet (url : String)
  | ReadAll
  | BodyClose
  | Sleep (milliseconds : Nat)
  | ExecCommand (name : String) (args : List String)
  | Setenv (key value : String)
  | SyscallExec (path : String)
  deriving DecidableEq, Repr

/-- What a handler did: the collaborator calls in order, and the `error` it
returned. -/
structure Outcome (J : Type) where
  trace : List (Effect J)
  ret : GoError
  deriving DecidableEq, Repr

/-- The collaborators of the handlers: what each call outside `handlers.go`
returns. `commands` holds `command.CheckUpdate` of each registered command,
`StoreID` is `waClient.Store.ID.String()`, `ToNonADString j` is
`j.ToNonAD().String()`, `SendRevoke chatJid id` is the error returned by
`waClient.SendMessage(ctx, chatJid, waClient.BuildRevoke(chatJid, EmptyJID, id))`. -/
structure Env (J : Type) where
  TgUpdateIsAuthorized : Context → Bool
  commands : List (Context → Bool)
  StoreID : String
  WaParseJID : String → J × Bool
  ToNonADString : J → String
  MsgIdGetWaFromTg : Int → Int → Int → String × String × String × GoError
  ChatThreadGetWaFromTg : Int → Int → String × GoError
  TgReplyWithErrorByContext : Context → String → String → GoError
  TgReplyTextByContext : Context → String → GoError
  TgSendToWhatsApp : Context → Message → Option RepliedMessage → J → String → String → Bool → GoError
  SendRevoke : J → String → GoError
  EditMessageText : String → Int → Int → Keyboard → GoError
  Answer : String → Bool → Int → GoError

variable {J : Type}

/-- The condition `msgToReplyTo != nil && msgToReplyTo.ForumTopicCreated == nil`
of `BridgeTelegramToWhatsAppHandler`, lines 149 and 184. -/
def isRealReply (msgToReplyTo : Option RepliedMessage) : Bool :=
  match msgToReplyTo with
  | some r => !r.ForumTopicCreated
  | none => false

/-- Lines 174-184 of `BridgeTelegramToWhatsAppHandler`, first half: the
broadcast rewrite and the participant normalisation. Returns the final
`(waChatID, participantID)`. -/
def statusUpdateRewrite (w : Env J) (waChatID participantID : String) : String × String :=
  if strings.HasSuffix waChatID "@broadcast" then
    (participantID, participantID)
  else if participantID != "" then
    (waChatID, w.ToNonADString (w.WaParseJID participantID).1)
  else
    (waChatID, participantID)

/-- Lines 174-184 of `BridgeTelegramToWhatsAppHandler`: rewrite, parse the
destination (the `ok` flag of `WaParseJID` is discarded) and send. `t` is the
trace so far. -/
def bridgeSend (w : Env J) (c : Context) (t : List (Effect J))
    (stanzaID participantID waChatID : String) : Outcome J :=
  let msgToForward := c.EffectiveMessage
  let msgToReplyTo := c.EffectiveMessage.ReplyToMessage
  let r := statusUpdateRewrite w waChatID participantID
  let waChatJID := (w.WaParseJID r.1).1
  { trace := t ++ [Effect.TgSendToWhatsApp msgToForward msgToReplyTo waChatJID r.2 stanzaID
              (isRealReply msgToReplyTo)],
    ret := w.TgSendToWhatsApp c msgToForward msgToReplyTo waChatJID r.2 stanzaID
              (isRealReply msgToReplyTo) }

/-- The `else` branch of `BridgeTelegramToWhatsAppHandler`, lines 161-172:
resolve the destination through the thread binding. Either the handler returns
early (`Except.error`), or the trace so far and the resolved
`(stanzaID, participantID, waChatID)` with which line 174 is reached. -/
def bridgeResolveThread (w : Env J) (c : Context) :
    Except (Outcome J) (List (Effect J) × String × String × String) :=
  let t := [Effect.ChatThreadGetWaFromTg c.EffectiveChatId c.EffectiveMessage.MessageThreadId]
  match w.ChatThreadGetWaFromTg c.EffectiveChatId c.EffectiveMessage.MessageThreadId with
  | (_, some err) =>
    Except.error
      { trace := t ++ [Effect.TgReplyWithErrorByContext
            "Failed to find the chat pairing between this topic and a WhatsApp chat" err],
        ret := w.TgReplyWithErrorByContext c
            "Failed to find the chat pairing between this topic and a WhatsApp chat" err }
  | (waChatID, none) =>
    if waChatID == "" then
      if c.EffectiveMessage.MessageThreadId != 0 then
        Except.error
          { trace := t ++ [Effect.TgReplyTextByContext
                "No mapping found between current topic and a WhatsApp chat"],
            ret := w.TgReplyTextByContext c
                "No mapping found between current topic and a WhatsApp chat" }
      else
        Except.error { trace := t, ret := none }
    else
      Except.ok (t, "", "", waChatID)

/-- Lines 146-172 of `BridgeTelegramToWhatsAppHandler`: the reply branch
(lines 149-160) or the thread branch. Either the handler returns early
(`Except.error`), or the trace so far and the resolved
`(stanzaID, participantID, waChatID)` with which line 174 is reached. -/
def bridgeResolve (w : Env J) (c : Context) :
    Except (Outcome J) (List (Effect J) × String × String × String) :=
  let msgToForward := c.EffectiveMessage
  match c.EffectiveMessage.ReplyToMessage with
  | some msgToReplyTo =>
    if !msgToReplyTo.ForumTopicCreated then
      let t := [Effect.MsgIdGetWaFromTg c.EffectiveChatId msgToReplyTo.MessageId
                  msgToForward.MessageThreadId]
      match w.MsgIdGetWaFromTg c.EffectiveChatId msgToReplyTo.MessageId
              msgToForward.MessageThreadId with
      | (_, _, _, some err) =>
        Except.error
          { trace := t ++ [Effect.TgReplyWithErrorByContext
                        "Failed to retreive a pair from database" err],
            ret := w.TgReplyWithErrorByContext c "Failed to retreive a pair from database" err }
      | (stanzaID, participantID, waChatID, none) =>
        if stanzaID == "" then
          Except.error
            { trace := t ++ [Effect.TgReplyWithErrorByContext "Cannot send to WhatsApp"
                          "corresponding stanza ID to replied to message not found"],
              ret := w.TgReplyWithErrorByContext c "Cannot send to WhatsApp"
                          "corresponding stanza ID to replied to message not found" }
        else if waChatID == w.StoreID then
          Except.ok (t, stanzaID, participantID, participantID)
        else
          Except.ok (t, stanzaID, participantID, waChatID)
    else
      bridgeResolveThread w c
  | none => bridgeResolveThread w c

/-- The handler `BridgeTelegramToWhatsAppHandler`, lines 129-185. -/
def BridgeTelegramToWhatsAppHandler (w : Env J) (c : Context) : Outcome J :=
  if !w.TgUpdateIsAuthorized c then
    { trace := [], ret := none }
  else if w.commands.any (fun command => command c) then
    { trace := [], ret := none }
  else
    match bridgeResolve w c with
    | Except.error o => o
    | Except.ok (t, stanzaID, participantID, waChatID) =>
      bridgeSend w c t stanzaID participantID waChatID

/-- The handler `RevokeCommandHandler`, lines 636-668. -/
def RevokeCommandHandler (w : Env J) (c : Context) : Outcome J :=
  let usageString := "Usage: Reply to a message, <code>/revoke</code>"
  if !w.TgUpdateIsAuthorized c then
    { trace := [], ret := none }
  else
    match c.EffectiveMessage.ReplyToMessage with
    | none =>
      { trace := [Effect.TgReplyTextByContext usageString],
        ret := w.TgReplyTextByContext c usageString }
    | some msgToRevoke =>
      if msgToRevoke.ForumTopicClosed then
        { trace := [Effect.TgReplyTextByContext usageString],
          ret := w.TgReplyTextByContext c usageString }
      else
        let chatId := c.EffectiveChatId
        let t := [Effect.MsgIdGetWaFromTg chatId msgToRevoke.MessageId msgToRevoke.MessageThreadId]
        match w.MsgIdGetWaFromTg chatId msgToRevoke.MessageId msgToRevoke.MessageThreadId with
        | (_, _, _, some err) =>
          { trace := t ++ [Effect.TgReplyWithErrorByContext
                "Failed to retrieve WhatsApp side IDs" err],
            ret := w.TgReplyWithErrorByContext c "Failed to retrieve WhatsApp side IDs" err }
        | (waMsgId, _, waChatId, none) =>
          let chatJid := (w.WaParseJID waChatId).1
          match w.SendRevoke chatJid waMsgId with
          | some err =>
            { trace := t ++ [Effect.SendRevoke chatJid waMsgId,
                  Effect.TgReplyWithErrorByContext "Failed to revoke message" err],
              ret := w.TgReplyWithErrorByContext c "Failed to revoke message" err }
          | none =>
            { trace := t ++ [Effect.SendRevoke chatJid waMsgId,
                  Effect.TgReplyTextByContext "<b>Successfully revoked</b>"],
              ret := w.TgReplyTextByContext c "<b>Successfully revoked</b>" }

/-- The answer of the two `else` branches of `RevokeCallbackHandler`, lines
741-749 and 751-759. -/
def invalidCallbackQuery (w : Env J) : Outcome J :=
  { trace := [Effect.Answer "Invalid callback query" true 60],
    ret := w.Answer "Invalid callback query" true 60 }

/-- The handler `RevokeCallbackHandler`, lines 670-760. `data` is
`strings.Split(cq.Data, "_")`; a list of three elements is `len(data) == 3`, a
list of four is `len(data) == 4`, with `data[1]`, `data[2]`, `data[3]` its
second, third and fourth element. An `Answer` whose `CacheTime` is not set is
recorded with `0`. -/
def RevokeCallbackHandler (w : Env J) (c : Context) : Outcome J :=
  if !w.TgUpdateIsAuthorized c then
    { trace := [], ret := none }
  else
    let chatId := c.EffectiveChatId
    let msgId := c.EffectiveMessage.MessageId
    match strings.Split c.CallbackData '_' with
    | [_, data1, data2] =>
      { trace := [Effect.EditMessageText "Revoke the message?" chatId msgId
                    (Keyboard.revoke data1 data2 true),
                  Effect.Answer "Are you sure?" false 0],
        ret := w.EditMessageText "Revoke the message?" chatId msgId
                    (Keyboard.revoke data1 data2 true) }
    | [_, data1, data2, confirmation] =>
      if confirmation == "n" then
        { trace := [Effect.EditMessageText "Successfully sent" chatId msgId
                      (Keyboard.revoke data1 data2 false),
                    Effect.Answer "Aborted" true 0],
          ret := w.EditMessageText "Successfully sent" chatId msgId
                      (Keyboard.revoke data1 data2 false) }
      else if confirmation == "y" then
        let chatJid := (w.WaParseJID data2).1
        match w.SendRevoke chatJid data1 with
        | some err =>
          { trace := [Effect.SendRevoke chatJid data1,
                      Effect.Answer ("Failed to send revoke message: " ++ err) true 60],
            ret := w.Answer ("Failed to send revoke message: " ++ err) true 60 }
        | none =>
          { trace := [Effect.SendRevoke chatJid data1,
                      Effect.Answer "Successfully revoked" true 60,
                      Effect.EditMessageText "<b>Revoked</b>" chatId msgId Keyboard.empty,
                      Effect.MsgIdDeletePair chatId msgId],
            ret := w.Answer "Successfully revoked" true 60 }
      else
        invalidCallbackQuery w
    | _ => invalidCallbackQuery w

/-- The filter under which `AddTelegramHandlers` registers
`RevokeCallbackHandler`, lines 64-67. -/
def revokeCallbackFilter (data : String) : Bool :=
  strings.HasPrefix data "revoke"

/-- Calls to the peer platform: the relay `TgSendToWhatsApp`, the revoke send
and the calls on the WhatsApp client. -/
def Effect.isPeerCall : Effect J → Bool
  | Effect.TgSendToWhatsApp _ _ _ _ _ _ => true
  | Effect.SendRevoke _ _ => true
  | Effect.TgSendToWhatsAppForward _ _ _ _ _ => true
  | Effect.GetJoinedGroups => true
  | Effect.GetGroupInfo _ => true
  | Effect.FetchAppState => true
  | Effect.GetAllContacts => true
  | Effect.Disconnect => true
  | Effect.Connect => true
  | Effect.JoinGroupWithLink _ => true
  | Effect.GetProfilePictureInfo _ => true
  | _ => false

/-- Calls that write to the correlation store. -/
def Effect.isStoreWrite : Effect J → Bool
  | Effect.MsgIdDeletePair _ _ => true
  | Effect.ChatThreadAddNewPair _ _ _ => true
  | Effect.MsgIdDropAllPairs => true
  | Effect.ContactNameBulkAddOrUpdate _ => true
  | _ => false

/-- Calls that read the correlation store. -/
def Effect.isStoreRead : Effect J → Bool
  | Effect.MsgIdGetWaFromTg _ _ _ => true
  | Effect.ChatThreadGetWaFromTg _ _ => true
  | Effect.ChatThreadGetTgFromWa _ _ => true
  | Effect.ChatThreadGetAllPairs _ => true
  | Effect.WaFuzzyFindContacts _ => true
  | Effect.WaGetGroupName _ => true
  | Effect.WaGetContactName _ => true
  | _ => false

/-- Calls that show something on the hub platform: replies, edits of the
interactive control and callback acknowledgments. -/
def Effect.isHubCall : Effect J → Bool
  | Effect.TgReplyWithErrorByContext _ _ => true
  | Effect.TgReplyTextByContext _ => true
  | Effect.EditMessageText _ _ _ _ => true
  | Effect.Answer _ _ _ => true
  | Effect.SendPhoto _ _ _ _ => true
  | Effect.EditForumTopic _ _ _ => true
  | Effect.Reply _ => true
  | _ => false

/-- Edits of the message that carries the interactive control. -/
def Effect.isEdit : Effect J → Bool
  | Effect.EditMessageText _ _ _ _ => true
  | _ => false

/-! ## The remaining handlers of `handlers.go` -/

/-- A row of the chat-thread table as `SyncTopicNamesHandler` reads it
(`pair.ID`, `pair.TgThreadId`, lines 562-563), with the hub conversation the
row belongs to. -/
structure ChatThreadPair where
  ID : String
  TgChatId : Int
  TgThreadId : Int
  deriving DecidableEq, Repr

/-- The collaborators of the remaining handlers, on top of `Env`.
`TargetChatID`, `GitExecutable`, `GoExecutable` are the configuration values;
`UpSince` is `startTime.In(localLocation).Format(timeFormat)`, `UpTime` is
`upTime.String()`, `Version` is `state.WATGBRIDGE_VERSION`, `Modules` is
`state.State.Modules`, `TelegramCommands` is `state.State.TelegramCommands` as
(command, description); `JIDString j` is `j.String()`, `IsGroupServer j` is
`j.Server == waTypes.GroupServer`, `EscapeString` is `html.EscapeString`;
`GetGroupInfo j` is `(groupInfo.JID, err)`, `GetProfilePictureInfo j` is
`(ppInfo.URL, err)`; `GetJoinedGroups` lists each group as `(group.Name,
group.JID)`; `WaFuzzyFindContacts q` lists the result map as (jid, name) in the
order the `range` loop visits it; every other field is what the call of the
same name returns. -/
structure AdminEnv (J : Type) extends Env J where
  TargetChatID : Int
  GitExecutable : String
  GoExecutable : String
  UpSince : String
  UpTime : String
  Version : String
  Modules : List String
  TelegramCommands : List (String × String)
  JIDString : J → String
  IsGroupServer : J → Bool
  EscapeString : String → String
  GetGroupInfo : J → J × GoError
  ChatThreadGetTgFromWa : String → Int → Int × Bool × GoError
  ChatThreadAddNewPair : String → Int → Int → GoError
  ChatThreadGetAllPairs : Int → List ChatThreadPair × GoError
  MsgIdDropAllPairs : GoError
  TgSendToWhatsAppForward : Context → RepliedMessage → J → String → String → Bool → GoError
  GetJoinedGroups : List (String × J) × GoError
  WaFuzzyFindContacts : String → List (String × String) × Int × GoError
  WaGetGroupName : J → String
  WaGetContactName : J → String
  ExecCommand : String → List String → GoError
  SyscallExec : String → GoError
  FetchAppState : GoError
  GetAllContacts : List (J × String) × GoError
  Connect : GoError
  JoinGroupWithLink : String → J × GoError
  GetProfilePictureInfo : J → String × GoError
  HttpGet : String → GoError
  ReadAll : List Nat × GoError
  SendPhoto : Int → List Nat → Int → Int → GoError
  Reply : String → GoError

/-- A reply through `utils.TgReplyTextByContext` whose result the handler
returns. -/
def replyText (w : AdminEnv J) (c : Context) (t : List (Effect J)) (text : String) : Outcome J :=
  { trace := t ++ [Effect.TgReplyTextByContext text], ret := w.TgReplyTextByContext c text }

/-- The statement `return utils.TgReplyWithErrorByContext(b, c, text, err)`. -/
def replyError (w : AdminEnv J) (c : Context) (t : List (Effect J)) (text err : String) :
    Outcome J :=
  { trace := t ++ [Effect.TgReplyWithErrorByContext text err],
    ret := w.TgReplyWithErrorByContext c text err }

/-- The handler `StartCommandHandler`, lines 187-217. -/
def StartCommandHandler (w : AdminEnv J) (c : Context) : Outcome J :=
  if !w.TgUpdateIsAuthorized c then
    { trace := [], ret := none }
  else
    let startMessage := "<b>Hello, Bot is Up & Running!</b>\n" ++
      (" • <b>Up Since</b>: " ++ w.UpSince ++ "\n • <b>Uptime Total</b>: " ++ w.UpTime ++ "\n") ++
      (" • <b>Bot Version</b>: <code>" ++ w.Version ++ "</code>\n")
    let startMessage :=
      if w.Modules.length > 0 then
        w.Modules.foldl
          (fun acc module => acc ++ ("   • <b>" ++ w.EscapeString module ++ "</b>\n"))
          (startMessage ++ " • <b>Loaded Modules</b>:\n")
      else
        startMessage ++ " • No Modules Loaded\n"
    replyText w c [] startMessage

/-- The loop of `GetWhatsAppGroupsHandler`, lines 232-242: `groupNum` is the
index of the next group, `outputString` the text gathered so far, `t` the trace
so far. A text of 1800 bytes or more is sent at once and followed by a pause of
500 milliseconds. -/
def groupsLoop (w : AdminEnv J) : List (String × J) → Nat → String → List (Effect J) →
    List (Effect J) × String
  | [], _, outputString, t => (t, outputString)
  | (name, jid) :: rest, groupNum, outputString, t =>
    let outputString := outputString ++
      (toString (groupNum + 1) ++ ". " ++ w.EscapeString name ++ " [<code>" ++
        w.EscapeString (w.JIDString jid) ++ "</code>]\n")
    if outputString.utf8ByteSize ≥ 1800 then
      groupsLoop w rest (groupNum + 1) ""
        (t ++ [Effect.TgReplyTextByContext outputString, Effect.Sleep 500])
    else
      groupsLoop w rest (groupNum + 1) outputString t

/-- The handler `GetWhatsAppGroupsHandler`, lines 219-249. -/
def GetWhatsAppGroupsHandler (w : AdminEnv J) (c : Context) : Outcome J :=
  if !w.TgUpdateIsAuthorized c then
    { trace := [], ret := none }
  else
    match w.GetJoinedGroups with
    | (_, some err) => replyError w c [Effect.GetJoinedGroups] "Failed to retrieve the groups" err
    | (waGroups, none) =>
      let r := groupsLoop w waGroups 0 "" [Effect.GetJoinedGroups]
      if r.2.utf8ByteSize > 0 then
        replyText w c r.1 r.2
      else
        { trace := r.1, ret := none }

/-- The loop of `FindContactHandler`, lines 275-284. -/
def contactsLoop (w : AdminEnv J) : List (String × String) → String → List (Effect J) →
    List (Effect J) × String
  | [], outputString, t => (t, outputString)
  | (jid, name) :: rest, outputString, t =>
    let outputString := outputString ++
      (" • <b>" ++ w.EscapeString name ++ "</b> [<code>" ++ w.EscapeString jid ++ "</code>]\n")
    if outputString.utf8ByteSize ≥ 1800 then
      contactsLoop w rest "" (t ++ [Effect.TgReplyTextByContext outputString, Effect.Sleep 500])
    else
      contactsLoop w rest outputString t

/-- The handler `FindContactHandler`, lines 251-291. -/
def FindContactHandler (w : AdminEnv J) (c : Context) : Outcome J :=
  if !w.TgUpdateIsAuthorized c then
    { trace := [], ret := none }
  else
    let usageString := "Usage: <code>" ++ w.EscapeString "/findcontact <search_string>" ++
      "</code>\n" ++ "Example: <code>/findcontact propheci</code>"
    match c.Args with
    | _ :: query :: _ =>
      match w.WaFuzzyFindContacts query with
      | (_, _, some err) =>
        replyError w c [Effect.WaFuzzyFindContacts query]
          "Encountered error while finding contacts" err
      | (results, resultsCount, none) =>
        if resultsCount == 0 then
          replyText w c [Effect.WaFuzzyFindContacts query] "No matching results found :("
        else
          let r := contactsLoop w results
            ("<b>Here are the " ++ toString resultsCount ++ " matching contacts:</b>\n")
            [Effect.WaFuzzyFindContacts query]
          if r.2.utf8ByteSize > 0 then
            replyText w c r.1 r.2
          else
            { trace := r.1, ret := none }
    | _ => replyText w c [] usageString

/-- The handler `UpdateAndRestartHandler`, lines 293-327. -/
def UpdateAndRestartHandler (w : AdminEnv J) (c : Context) : Outcome J :=
  if !w.TgUpdateIsAuthorized c then
    { trace := [], ret := none }
  else
    let t := [Effect.ExecCommand w.GitExecutable ["pull", "--rebase"]]
    match w.ExecCommand w.GitExecutable ["pull", "--rebase"] with
    | some err => replyError w c t "Failed to execute 'git pull --rebase' command" err
    | none =>
      let t := t ++ [Effect.TgReplyTextByContext "Successfully pulled from GitHub",
        Effect.ExecCommand w.GoExecutable ["build"]]
      match w.ExecCommand w.GoExecutable ["build"] with
      | some err => replyError w c t "Failed to execute 'go build' command" err
      | none =>
        let t := t ++ [Effect.TgReplyTextByContext
            "Successfully built the binary, now restarting...",
          Effect.Setenv "WATG_IS_RESTARTED" "1",
          Effect.Setenv "WATG_CHAT_ID" (toString c.EffectiveChatId),
          Effect.Setenv "WATG_MESSAGE_ID" (toString c.EffectiveMessage.MessageId)]
        let t := if c.EffectiveMessage.IsTopicMessage then
            t ++ [Effect.Setenv "WATG_THREAD_ID" (toString c.EffectiveMessage.MessageThreadId)]
          else t
        let t := t ++ [Effect.SyscallExec "watgbridge"]
        match w.SyscallExec "watgbridge" with
        | some err => replyError w c t "Failed to run exec syscall to restart the bot" err
        | none => { trace := t, ret := none }

/-- The handler `SyncContactsHandler`, lines 329-350. -/
def SyncContactsHandler (w : AdminEnv J) (c : Context) : Outcome J :=
  if !w.TgUpdateIsAuthorized c then
    { trace := [], ret := none }
  else
    let t := [Effect.TgReplyTextByContext "Syncing contacts, may take some time...",
      Effect.FetchAppState]
    match w.FetchAppState with
    | some err => replyError w c t "Failed to sync contacts" err
    | none =>
      match w.GetAllContacts with
      | (contacts, none) =>
        replyText w c (t ++ [Effect.GetAllContacts, Effect.ContactNameBulkAddOrUpdate contacts])
          "Successfully synced the contact list"
      | (_, some _) =>
        replyText w c (t ++ [Effect.GetAllContacts]) "Successfully synced the contact list"

/-- The handler `ClearMessageIdPairsHistoryHandler`, lines 352-364. -/
def ClearMessageIdPairsHistoryHandler (w : AdminEnv J) (c : Context) : Outcome J :=
  if !w.TgUpdateIsAuthorized c then
    { trace := [], ret := none }
  else
    match w.MsgIdDropAllPairs with
    | some err => replyError w c [Effect.MsgIdDropAllPairs] "Failed to delete stored pairs" err
    | none => replyText w c [Effect.MsgIdDropAllPairs] "Successfully deleted all the stored pairs"

/-- The handler `RestartWhatsAppConnectionHandler`, lines 366-381. -/
def RestartWhatsAppConnectionHandler (w : AdminEnv J) (c : Context) : Outcome J :=
  if !w.TgUpdateIsAuthorized c then
    { trace := [], ret := none }
  else
    match w.Connect with
    | some err =>
      replyError w c [Effect.Disconnect, Effect.Connect] "Failed to reconnect to WA servers" err
    | none =>
      replyText w c [Effect.Disconnect, Effect.Connect]
        "Successfully restarted the WhatsApp connection"

/-- The handler `JoinInviteLinkHandler`, lines 383-407. -/
def JoinInviteLinkHandler (w : AdminEnv J) (c : Context) : Outcome J :=
  if !w.TgUpdateIsAuthorized c then
    { trace := [], ret := none }
  else
    let usageString := "Usage: <code>" ++ w.EscapeString "/joininvitelink <invite_link>" ++ "</code>"
    match c.Args with
    | _ :: inviteLink :: _ =>
      match w.JoinGroupWithLink inviteLink with
      | (_, some err) => replyError w c [Effect.JoinGroupWithLink inviteLink] "Failed to join" err
      | (groupID, none) =>
        replyText w c [Effect.JoinGroupWithLink inviteLink]
          ("Joined a new group with ID: <code>" ++ w.JIDString groupID ++ "</code>")
    | _ => replyText w c [] usageString

/-- Lines 440-454 of `SetTargetGroupChatHandler`, the same as lines 482-496 of
`SetTargetPrivateChatHandler`: look the address up in the target hub
conversation, stop when a topic is found, add the pair otherwise. -/
def bindPeerToThread (w : AdminEnv J) (c : Context) (t : List (Effect J)) (waChatId : String) :
    Outcome J :=
  let t := t ++ [Effect.ChatThreadGetTgFromWa waChatId w.TargetChatID]
  match w.ChatThreadGetTgFromWa waChatId w.TargetChatID with
  | (_, _, some err) => replyError w c t "Failed to check database for existing mapping" err
  | (_, true, none) =>
    replyText w c t "A topic already exists in database for the given WhatsApp chat. Aborting..."
  | (_, false, none) =>
    let t := t ++ [Effect.ChatThreadAddNewPair waChatId w.TargetChatID
      c.EffectiveMessage.MessageThreadId]
    match w.ChatThreadAddNewPair waChatId w.TargetChatID c.EffectiveMessage.MessageThreadId with
    | some err => replyError w c t "Failed to add the mapping in database. Unsuccessful" err
    | none => replyText w c t "Successfully mapped"

/-- The handler `SetTargetGroupChatHandler`, lines 409-455. -/
def SetTargetGroupChatHandler (w : AdminEnv J) (c : Context) : Outcome J :=
  if !w.TgUpdateIsAuthorized c then
    { trace := [], ret := none }
  else
    let usageString := "Usage: (Send in a topic) <code>" ++
      w.EscapeString "/settargetgroupchat <group_id>" ++ "</code>"
    match c.Args with
    | _ :: groupID :: _ =>
      if !c.EffectiveMessage.IsTopicMessage || c.EffectiveMessage.MessageThreadId == 0 then
        replyText w c [] "The command should be sent in a topic"
      else
        let groupJID := (w.WaParseJID groupID).1
        match w.GetGroupInfo groupJID with
        | (_, some err) => replyError w c [Effect.GetGroupInfo groupJID] "Failed to get group info" err
        | (groupJID2, none) =>
          bindPeerToThread w c [Effect.GetGroupInfo groupJID] (w.JIDString groupJID2)
    | _ => replyText w c [] usageString

/-- The handler `SetTargetPrivateChatHandler`, lines 457-497. The `ok` flag of
`WaParseJID` is discarded (line 480). -/
def SetTargetPrivateChatHandler (w : AdminEnv J) (c : Context) : Outcome J :=
  if !w.TgUpdateIsAuthorized c then
    { trace := [], ret := none }
  else
    let usageString := "Usage: (Send in a topic) <code>" ++
      w.EscapeString "/settargetprivatechat <user_id>" ++ "</code>"
    match c.Args with
    | _ :: groupID :: _ =>
      if !c.EffectiveMessage.IsTopicMessage || c.EffectiveMessage.MessageThreadId == 0 then
        replyText w c [] "The command should be sent in a topic"
      else
        let userJID := (w.WaParseJID groupID).1
        bindPeerToThread w c [] (w.JIDString userJID)
    | _ => replyText w c [] usageString

/-- The handler `GetProfilePictureHandler`, lines 499-548. The deferred
`res.Body.Close()` is recorded last on the paths that follow a successful
`Get`. -/
def GetProfilePictureHandler (w : AdminEnv J) (c : Context) : Outcome J :=
  if !w.TgUpdateIsAuthorized c then
    { trace := [], ret := none }
  else
    let usageString := "Usage: <code>" ++ w.EscapeString "/getprofilepicture <user/group_id>" ++
      "</code>" ++ "\nYou need to add <code>@g.us</code> at the end for groups"
    match c.Args with
    | _ :: userID :: _ =>
      let userJID := (w.WaParseJID userID).1
      let t := [Effect.GetProfilePictureInfo userJID]
      match w.GetProfilePictureInfo userJID with
      | (_, some err) =>
        replyError w c t "Failed to fetch profile picture info from WhatsApp" err
      | (url, none) =>
        let t := t ++ [Effect.HttpGet url]
        match w.HttpGet url with
        | some err =>
          replyError w c t "Failed to make HTTP GET request to profile picture URL" err
        | none =>
          let t := t ++ [Effect.ReadAll]
          match w.ReadAll with
          | (_, some err) =>
            let o := replyError w c t "Failed to read HTTP response body" err
            { trace := o.trace ++ [Effect.BodyClose], ret := o.ret }
          | (imgBytes, none) =>
            let messageThreadId :=
              if c.EffectiveMessage.IsTopicMessage then c.EffectiveMessage.MessageThreadId else 0
            let t := t ++ [Effect.SendPhoto c.EffectiveChatId imgBytes
              c.EffectiveMessage.MessageId messageThreadId]
            match w.SendPhoto c.EffectiveChatId imgBytes c.EffectiveMessage.MessageId
                messageThreadId with
            | some err =>
              let o := replyError w c t "Failed to send photo" err
              { trace := o.trace ++ [Effect.BodyClose], ret := o.ret }
            | none => { trace := t ++ [Effect.BodyClose], ret := none }
    | _ => replyText w c [] usageString

/-- The loop of `SyncTopicNamesHandler`, lines 560-583: the pair of
`status@broadcast` is skipped, every other topic is renamed and followed by a
pause of 5 seconds. -/
def topicNamesLoop (w : AdminEnv J) (c : Context) : List ChatThreadPair → List (Effect J) →
    List (Effect J)
  | [], t => t
  | pair :: rest, t =>
    if pair.ID == "status@broadcast" then
      topicNamesLoop w c rest t
    else
      let waChatJid := (w.WaParseJID pair.ID).1
      if w.IsGroupServer waChatJid then
        topicNamesLoop w c rest (t ++ [Effect.WaGetGroupName waChatJid,
          Effect.EditForumTopic c.EffectiveChatId pair.TgThreadId (w.WaGetGroupName waChatJid),
          Effect.Sleep 5000])
      else
        topicNamesLoop w c rest (t ++ [Effect.WaGetContactName waChatJid,
          Effect.EditForumTopic c.EffectiveChatId pair.TgThreadId (w.WaGetContactName waChatJid),
          Effect.Sleep 5000])

/-- The handler `SyncTopicNamesHandler`, lines 550-587. -/
def SyncTopicNamesHandler (w : AdminEnv J) (c : Context) : Outcome J :=
  if !w.TgUpdateIsAuthorized c then
    { trace := [], ret := none }
  else
    let t := [Effect.ChatThreadGetAllPairs c.EffectiveChatId]
    match w.ChatThreadGetAllPairs c.EffectiveChatId with
    | (_, some err) =>
      replyError w c t "failed to retreive chat thread pairs from database" err
    | (chatThreadPairs, none) =>
      { trace := topicNamesLoop w c chatThreadPairs t ++
          [Effect.Reply "Successfully synced topic names"],
        ret := w.Reply "Successfully synced topic names" }

/-- The handler `HelpCommandHandler`, lines 589-603. -/
def HelpCommandHandler (w : AdminEnv J) (c : Context) : Outcome J :=
  if !w.TgUpdateIsAuthorized c then
    { trace := [], ret := none }
  else
    let helpString := w.TelegramCommands.foldl
      (fun acc command =>
        acc ++ (" • <code>/" ++ command.1 ++ "</code>: " ++ w.EscapeString command.2 ++ "\n"))
      "<b>Here are the available commands:</b>\n"
    replyText w c [] helpString

/-- The handler `SendToWhatsAppHandler`, lines 605-634: the one caller that
tests the `ok` flag of `WaParseJID`. The message to forward is the replied-to
message and `msgToReplyTo` is `nil`, which `Effect.TgSendToWhatsAppForward`
records. -/
def SendToWhatsAppHandler (w : AdminEnv J) (c : Context) : Outcome J :=
  if !w.TgUpdateIsAuthorized c then
    { trace := [], ret := none }
  else
    let usageString := "Usage: Reply to a message, <code>" ++ w.EscapeString "/send <target_id>" ++
      "</code>\n" ++ "Example: <code>/send 628123xxx</code>"
    match c.Args, c.EffectiveMessage.ReplyToMessage with
    | _ :: waChatID :: _, some msgToForward =>
      if msgToForward.ForumTopicCreated then
        replyText w c [] usageString
      else
        match w.WaParseJID waChatID with
        | (_, false) => replyText w c [] "Provided JID is not valid"
        | (waChatJID, true) =>
          { trace := [Effect.TgSendToWhatsAppForward msgToForward waChatJID "" "" false],
            ret := w.TgSendToWhatsAppForward c msgToForward waChatJID "" "" false }
    | _, _ => replyText w c [] usageString

/-- The handlers `AddTelegramHandlers` registers, lines 36-67: the bridge
handler, the fifteen commands and the revoke callback handler. -/
inductive HandlerId where
  | bridge
  | start
  | getwagroups
  | findcontact
  | revoke
  | synccontacts
  | clearpairhistory
  | restartwa
  | joininvitelink
  | settargetgroupchat
  | settargetprivatechat
  | getprofilepicture
  | updateandrestart
  | synctopicnames
  | send
  | help
  | revokeCallback
  deriving DecidableEq, Repr

/-- The handler function registered under each name, lines 39, 43-57 and 67. -/
def HandlerId.run (w : AdminEnv J) (c : Context) : HandlerId → Outcome J
  | HandlerId.bridge => BridgeTelegramToWhatsAppHandler w.toEnv c
  | HandlerId.start => StartCommandHandler w c
  | HandlerId.getwagroups => GetWhatsAppGroupsHandler w c
  | HandlerId.findcontact => FindContactHandler w c
  | HandlerId.revoke => RevokeCommandHandler w.toEnv c
  | HandlerId.synccontacts => SyncContactsHandler w c
  | HandlerId.clearpairhistory => ClearMessageIdPairsHistoryHandler w c
  | HandlerId.restartwa => RestartWhatsAppConnectionHandler w c
  | HandlerId.joininvitelink => JoinInviteLinkHandler w c
  | HandlerId.settargetgroupchat => SetTargetGroupChatHandler w c
  | HandlerId.settargetprivatechat => SetTargetPrivateChatHandler w c
  | HandlerId.getprofilepicture => GetProfilePictureHandler w c
  | HandlerId.updateandrestart => UpdateAndRestartHandler w c
  | HandlerId.synctopicnames => SyncTopicNamesHandler w c
  | HandlerId.send => SendToWhatsAppHandler w c
  | HandlerId.help => HelpCommandHandler w c
  | HandlerId.revokeCallback => RevokeCallbackHandler w.toEnv c

/-! ## The correlation store -/

/-- Modelled from the spec: the `MessageIdPair` row of section 3 of the
specification (the `database` package is not among the sources):
`hubConversationId`, `hubMessageId`, `hubThreadId`, `peerStanzaId`,
`peerParticipantAddress`, `peerChatAddress`. -/
structure MsgIdPair where
  TgChatId : Int
  TgMsgId : Int
  TgThreadId : Int
  StanzaId : String
  ParticipantId : String
  WaChatId : String
  deriving DecidableEq, Repr

/-- Modelled from the spec: the two tables of the Correlation Store of section
4.1, which the absent `database` package keeps. -/
structure Store where
  chatThreadPairs : List ChatThreadPair
  msgIdPairs : List MsgIdPair
  deriving DecidableEq, Repr

/-- Modelled from the spec: `getHubFromPeer(peerChatAddress, hubConversationId)
→ (hubThreadId, found)`, the absent `database.ChatThreadGetTgFromWa`. -/
def Store.ChatThreadGetTgFromWa (s : Store) (waChatId : String) (tgChatId : Int) :
    Int × Bool × GoError :=
  match s.chatThreadPairs.find? (fun p => p.ID == waChatId && p.TgChatId == tgChatId) with
  | some p => (p.TgThreadId, true, none)
  | none => (0, false, none)

/-- Modelled from the spec: `getPeerFromHub(hubConversationId, hubThreadId) →
peerChatAddress | NotFound`, the absent `database.ChatThreadGetWaFromTg`, which
signals not-found by the empty address. -/
def Store.ChatThreadGetWaFromTg (s : Store) (tgChatId tgThreadId : Int) : String × GoError :=
  match s.chatThreadPairs.find? (fun p => p.TgChatId == tgChatId && p.TgThreadId == tgThreadId) with
  | some p => (p.ID, none)
  | none => ("", none)

/-- Modelled from the spec: `putChatThreadPair(peerChatAddress,
hubConversationId, hubThreadId) → ok | AlreadyExists`, the absent
`database.ChatThreadAddNewPair`: `peerChatAddress` is the unique key, and a
write whose key is present fails with `AlreadyExists` and overwrites
nothing. -/
def Store.ChatThreadAddNewPair (s : Store) (waChatId : String) (tgChatId tgThreadId : Int) :
    Store × GoError :=
  if s.chatThreadPairs.any (fun p => p.ID == waChatId) then
    (s, some "AlreadyExists")
  else
    ({ s with
        chatThreadPairs :=
          s.chatThreadPairs ++ [{ ID := waChatId, TgChatId := tgChatId, TgThreadId := tgThreadId }] },
      none)

/-- Modelled from the spec: `getPeerFromHubMessage(hubConversationId,
hubMessageId, hubThreadId)`, the absent `database.MsgIdGetWaFromTg`, which
signals not-found by empty strings and a nil error. -/
def Store.MsgIdGetWaFromTg (s : Store) (tgChatId tgMsgId tgThreadId : Int) :
    String × String × String × GoError :=
  match s.msgIdPairs.find? (fun p =>
      p.TgChatId == tgChatId && p.TgMsgId == tgMsgId && p.TgThreadId == tgThreadId) with
  | some p => (p.StanzaId, p.ParticipantId, p.WaChatId, none)
  | none => ("", "", "", none)

/-- Modelled from the spec: `deleteMessageIdPair(hubConversationId,
hubMessageId)`, the absent `database.MsgIdDeletePair`. -/
def Store.MsgIdDeletePair (s : Store) (tgChatId tgMsgId : Int) : Store :=
  { s with
    msgIdPairs :=
      s.msgIdPairs.filter (fun p => !(p.TgChatId == tgChatId && p.TgMsgId == tgMsgId)) }

/-- Modelled from the spec: `deleteAllMessageIdPairs()`, the absent
`database.MsgIdDropAllPairs`. -/
def Store.MsgIdDropAllPairs (s : Store) : Store :=
  { s with msgIdPairs := [] }

/-- The store after one call of a handler: the three writes to the two tables
change it, every other call leaves it as it is (the contact-name cache is not
one of the two tables). -/
def Store.apply (s : Store) : Effect J → Store
  | Effect.MsgIdDeletePair tgChatId tgMsgId => s.MsgIdDeletePair tgChatId tgMsgId
  | Effect.ChatThreadAddNewPair waChatId tgChatId tgThreadId =>
    (s.ChatThreadAddNewPair waChatId tgChatId tgThreadId).1
  | Effect.MsgIdDropAllPairs => s.MsgIdDropAllPairs
  | _ => s

/-- The store after the calls of a handler, in order. -/
def Store.applyTrace (s : Store) (t : List (Effect J)) : Store :=
  t.foldl Store.apply s

/-- The collaborators `base` with the store calls served by the store `s`. -/
def Store.env (base : AdminEnv J) (s : Store) : AdminEnv J :=
  { base with
    MsgIdGetWaFromTg := s.MsgIdGetWaFromTg
    ChatThreadGetWaFromTg := s.ChatThreadGetWaFromTg
    ChatThreadGetTgFromWa := s.ChatThreadGetTgFromWa
    ChatThreadAddNewPair := fun waChatId tgChatId tgThreadId =>
      (s.ChatThreadAddNewPair waChatId tgChatId tgThreadId).2
    ChatThreadGetAllPairs := fun tgChatId =>
      (s.chatThreadPairs.filter (fun p => p.TgChatId == tgChatId), none) }

/-- The invariant of the chat-thread table: a peer address has at most one
pair. -/
def Store.uniquePeer (s : Store) : Prop :=
  (s.chatThreadPairs.map (fun p => p.ID)).Nodup

instance (s : Store) : Decidable s.uniquePeer :=
  inferInstanceAs (Decidable (List.Nodup (s.chatThreadPairs.map (fun p : ChatThreadPair => p.ID))))

/-- A bind command: `/settargetgroupchat` or `/settargetprivatechat` with its
update. -/
inductive BindCommand where
  | group (c : Context)
  | user (c : Context)
  deriving DecidableEq, Repr

/-- The handler a bind command is dispatched to. -/
def BindCommand.run (w : AdminEnv J) : BindCommand → Outcome J
  | BindCommand.group c => SetTargetGroupChatHandler w c
  | BindCommand.user c => SetTargetPrivateChatHandler w c

/-- The store after one bind command handled against the store `s`. -/
def bindStep (base : AdminEnv J) (s : Store) (cmd : BindCommand) : Store :=
  s.applyTrace (cmd.run (Store.env base s)).trace

/-- The store after a sequence of bind commands. -/
def runBinds (base : AdminEnv J) (s : Store) (cmds : List BindCommand) : Store :=
  cmds.foldl (bindStep base) s

/-- The update of a bind command. -/
def BindCommand.context : BindCommand → Context
  | BindCommand.group c => c
  | BindCommand.user c => c

/-- The peer chat address a bind command is about, the one its handler looks
up and binds: `groupInfo.JID.String()` for the group command (lines 433-440),
`userJID.String()` for the private one (lines 480-482); none when the command
has no argument. -/
def BindCommand.peerAddress (w : AdminEnv J) : BindCommand → Option String
  | BindCommand.group c =>
    match c.Args with
    | _ :: groupID :: _ => some (w.JIDString (w.GetGroupInfo (w.WaParseJID groupID).1).1)
    | _ => none
  | BindCommand.user c =>
    match c.Args with
    | _ :: groupID :: _ => some (w.JIDString (w.WaParseJID groupID).1)
    | _ => none

/-- The guards a bind command passes before its handler looks the address up:
the update is authorized, it is sent in a topic whose thread id is not 0, and
for the group command `GetGroupInfo` returns no error. -/
def BindCommand.passesGuards (w : AdminEnv J) : BindCommand → Bool
  | BindCommand.group c =>
    match c.Args with
    | _ :: groupID :: _ =>
      w.TgUpdateIsAuthorized c && c.EffectiveMessage.IsTopicMessage &&
        c.EffectiveMessage.MessageThreadId != 0 &&
        (w.GetGroupInfo (w.WaParseJID groupID).1).2.isNone
    | _ => false
  | BindCommand.user c =>
    match c.Args with
    | _ :: _ :: _ =>
      w.TgUpdateIsAuthorized c && c.EffectiveMessage.IsTopicMessage &&
        c.EffectiveMessage.MessageThreadId != 0
    | _ => false

/-- A way the store may carry out `database.ChatThreadAddNewPair`: the store
after the write, and the error returned. -/
abbrev PutPair := Store → String → Int → Int → Store × GoError

/-- What a write does when nothing is assumed of the store's own checks: it
either leaves the store as it is or appends exactly the pair asked for. The
write of the specification, `Store.ChatThreadAddNewPair`, is of this kind, and
so is `Store.appendChatThreadPair`, which checks nothing. -/
def PutPair.appendsOrRefuses (put : PutPair) : Prop :=
  ∀ (s : Store) (waChatId : String) (tgChatId tgThreadId : Int),
    (put s waChatId tgChatId tgThreadId).1 = s ∨
    (put s waChatId tgChatId tgThreadId).1 =
      { s with
        chatThreadPairs :=
          s.chatThreadPairs ++ [{ ID := waChatId, TgChatId := tgChatId, TgThreadId := tgThreadId }] }

/-- The write of a chat-thread table that does not enforce its key: the pair
is appended whatever the table holds. -/
def Store.appendChatThreadPair : PutPair :=
  fun s waChatId tgChatId tgThreadId =>
    ({ s with
        chatThreadPairs :=
          s.chatThreadPairs ++ [{ ID := waChatId, TgChatId := tgChatId, TgThreadId := tgThreadId }] },
      none)

/-- The store after one call of a handler, when `ChatThreadAddNewPair` is
carried out by `put`. -/
def Store.applyWith (put : PutPair) (s : Store) : Effect J → Store
  | Effect.MsgIdDeletePair tgChatId tgMsgId => s.MsgIdDeletePair tgChatId tgMsgId
  | Effect.ChatThreadAddNewPair waChatId tgChatId tgThreadId =>
    (put s waChatId tgChatId tgThreadId).1
  | Effect.MsgIdDropAllPairs => s.MsgIdDropAllPairs
  | _ => s

/-- The store after the calls of a handler, in order, when
`ChatThreadAddNewPair` is carried out by `put`. -/
def Store.applyTraceWith (put : PutPair) (s : Store) (t : List (Effect J)) : Store :=
  t.foldl (Store.applyWith put) s

/-- The collaborators `base` with the store calls served by the store `s`,
`ChatThreadAddNewPair` being carried out by `put`. -/
def Store.envWith (put : PutPair) (base : AdminEnv J) (s : Store) : AdminEnv J :=
  { Store.env base s with
    ChatThreadAddNewPair := fun waChatId tgChatId tgThreadId =>
      (put s waChatId tgChatId tgThreadId).2 }

/-- The store after one bind command handled against the store `s`, when
`ChatThreadAddNewPair` is carried out by `put`. -/
def bindStepWith (put : PutPair) (base : AdminEnv J) (s : Store) (cmd : BindCommand) : Store :=
  s.applyTraceWith put (cmd.run (Store.envWith put base s)).trace

/-- The store after a sequence of bind commands, when `ChatThreadAddNewPair`
is carried out by `put`. -/
def runBindsWith (put : PutPair) (base : AdminEnv J) (s : Store) (cmds : List BindCommand) :
    Store :=
  cmds.foldl (bindStepWith put base) s

/-- Every pair of the chat-thread table belongs to the hub conversation
`tgChatId`. -/
def Store.inConversation (s : Store) (tgChatId : Int) : Prop :=
  ∀ p ∈ s.chatThreadPairs, p.TgChatId = tgChatId

instance (s : Store) (tgChatId : Int) : Decidable (s.inConversation tgChatId) :=
  inferInstanceAs (Decidable (∀ p ∈ s.chatThreadPairs, p.TgChatId = tgChatId))

/-! ## Session bootstrap: `whatsapp/client.go` -/

/-- An item of the channel `client.GetQRChannel` returns: `evt.Event` and
`evt.Code`. -/
structure QRChannelItem where
  Event : String
  Code : String
  deriving DecidableEq, Repr

/-- One call made by `NewWhatsAppClient`, with the arguments that matter. -/
inductive BootEffect where
  | SqlstoreNew (dialect address : String)
  | GetFirstDevice
  | NewClient
  | GetQRChannel
  | Connect
  | SendMessage (chatId : Int) (text : String)
  | QRTerminalGenerate (code : String)
  | LoggerInfo (msg field : String)
  | LoggerSync
  deriving DecidableEq, Repr

/-- How `NewWhatsAppClient` ends: it returns an `error`, or it panics. -/
inductive BootResult where
  | returned (err : GoError)
  | panicked (msg : String)
  deriving DecidableEq, Repr

/-- What `NewWhatsAppClient` did. -/
structure BootOutcome where
  trace : List BootEffect
  result : BootResult
  deriving DecidableEq, Repr

/-- The collaborators of `NewWhatsAppClient`: the configuration values, what
each call returns, and `qrChan`, the items the pairing channel delivers before
it is closed. `StoreID` is the pointer `client.Store.ID` at line 93: `none` is
`nil` (no durable session), `some j` a pointer whose `String()` is `j`.
`StoreIDAfterPairing` is the same pointer at line 124 when the pairing branch
was taken: the identity the pairing stored, or still `nil` when the channel was
closed without a pairing. `TelegramBotIsNil` is
`state.State.TelegramBot == nil`. -/
structure BootEnv where
  WhatsmeowDebugMode : Bool
  NewDevelopment : GoError
  ProductionBuild : GoError
  LoginDatabaseType : String
  LoginDatabaseURL : String
  SqlstoreNew : GoError
  GetFirstDevice : GoError
  StoreID : Option String
  StoreIDAfterPairing : Option String
  Connect : GoError
  qrChan : List QRChannelItem
  TelegramBotIsNil : Bool
  OwnerID : Int
  SendMessage : Int → String → GoError

/-- The loop `for evt := range qrChan`, lines 99-115. The value `SendMessage`
returns is dropped. -/
def qrLoop (w : BootEnv) : List QRChannelItem → List BootEffect
  | [] => []
  | evt :: rest =>
    if evt.Event == "code" then
      if !w.TelegramBotIsNil then
        BootEffect.SendMessage w.OwnerID
            "Please check your terminal and scan the QR code to login to WhatsApp" ::
          BootEffect.QRTerminalGenerate evt.Code :: qrLoop w rest
      else
        BootEffect.QRTerminalGenerate evt.Code :: qrLoop w rest
    else
      BootEffect.LoggerInfo "Received WhatsApp login event" evt.Event :: qrLoop w rest

/-- Lines 122-126 of `NewWhatsAppClient`: the arguments of the last
`logger.Info` call evaluate `client.Store.ID.String()`. On a `nil` pointer that
is a nil dereference: the call is not made and the function panics; otherwise
the success is logged and `nil` returned. The deferred `logger.Sync()` runs
either way. `t` is the trace so far. -/
def logSuccess (t : List BootEffect) (storeID : Option String) : BootOutcome :=
  match storeID with
  | none =>
    { trace := t ++ [BootEffect.LoggerSync],
      result := BootResult.panicked
        "runtime error: invalid memory address or nil pointer dereference" }
  | some jid =>
    { trace := t ++ [BootEffect.LoggerInfo "Successfully logged into WhatsApp" jid,
        BootEffect.LoggerSync],
      result := BootResult.returned none }

/-- The function `NewWhatsAppClient`, lines 47-127. The deferred
`logger.Sync()` is recorded last on every path that follows line 70. -/
def NewWhatsAppClient (w : BootEnv) : BootOutcome :=
  match (if w.WhatsmeowDebugMode then w.NewDevelopment else w.ProductionBuild) with
  | some err =>
    { trace := [],
      result := BootResult.panicked
        (if w.WhatsmeowDebugMode then
          "Failed to initialize development loggers for WhatsMeow client: " ++ err
        else
          "Failed to initialize production loggers for WhatsMeow client: " ++ err) }
  | none =>
    let t := [BootEffect.SqlstoreNew w.LoginDatabaseType w.LoginDatabaseURL]
    match w.SqlstoreNew with
    | some err =>
      { trace := t ++ [BootEffect.LoggerSync],
        result := BootResult.returned
          (some ("Could not initialize sqlstore for WhatsApp: " ++ err)) }
    | none =>
      let t := t ++ [BootEffect.GetFirstDevice]
      match w.GetFirstDevice with
      | some err =>
        { trace := t ++ [BootEffect.LoggerSync],
          result := BootResult.returned
            (some ("Could not initialize device store for WhatsApp: " ++ err)) }
      | none =>
        let t := t ++ [BootEffect.NewClient]
        match w.StoreID with
        | none =>
          let t := t ++ [BootEffect.GetQRChannel, BootEffect.Connect]
          match w.Connect with
          | some err =>
            { trace := t ++ [BootEffect.LoggerSync],
              result := BootResult.returned
                (some ("Could not connect to WhatsApp for login: " ++ err)) }
          | none => logSuccess (t ++ qrLoop w w.qrChan) w.StoreIDAfterPairing
        | some jid =>
          let t := t ++ [BootEffect.Connect]
          match w.Connect with
          | some err =>
            { trace := t ++ [BootEffect.LoggerSync],
              result := BootResult.returned (some ("Could not connect to WhatsApp: " ++ err)) }
          | none => logSuccess t (some jid)

/-! ## Concrete collaborators

Addresses are kept as strings; the address parser accepts every string but the
empty one; every hub call succeeds. -/

/-- A concrete set of collaborators: `authorized` is the answer of
`TgUpdateIsAuthorized`, `msgPair` what `MsgIdGetWaFromTg` returns, `threadPeer`
what `ChatThreadGetWaFromTg` returns, `revokeErr` what the revoke send
returns. -/
def exampleEnv (authorized : Bool) (msgPair : String × String × String × GoError)
    (threadPeer : String × GoError) (revokeErr : GoError) : Env String :=
  { TgUpdateIsAuthorized := fun _ => authorized
    commands := [fun _ => false]
    StoreID := "6281000@s.whatsapp.net"
    WaParseJID := fun s => (s, s != "")
    ToNonADString := fun j => j
    MsgIdGetWaFromTg := fun _ _ _ => msgPair
    ChatThreadGetWaFromTg := fun _ _ => threadPeer
    TgReplyWithErrorByContext := fun _ _ _ => none
    TgReplyTextByContext := fun _ _ => none
    TgSendToWhatsApp := fun _ _ _ _ _ _ _ => none
    SendRevoke := fun _ _ => revokeErr
    EditMessageText := fun _ _ _ _ => none
    Answer := fun _ _ _ => none }

/-- A hub message `msgId` in thread `threadId` of the hub conversation
`-100555`, replying to `replyTo`. -/
def exampleMessage (msgId threadId : Int) (replyTo : Option RepliedMessage) : Context :=
  { EffectiveChatId := -100555
    EffectiveMessage :=
      { MessageId := msgId, MessageThreadId := threadId, IsTopicMessage := threadId != 0,
        ReplyToMessage := replyTo }
    CallbackData := ""
    Args := [] }

/-- A press of the interactive control of hub message `msgId` carrying the
token `data`. -/
def exampleCallback (msgId : Int) (data : String) : Context :=
  { EffectiveChatId := -100555
    EffectiveMessage :=
      { MessageId := msgId, MessageThreadId := 0, IsTopicMessage := false,
        ReplyToMessage := none }
    CallbackData := data
    Args := [] }

/-- A relayed (non thread-creation) hub message, as a reply target. -/
def exampleReplied (msgId threadId : Int) : RepliedMessage :=
  { MessageId := msgId, MessageThreadId := threadId, ForumTopicCreated := false,
    ForumTopicClosed := false }

/-- The collaborators `exampleEnv` with the address parser accepting exactly
the strings `valid` accepts. -/
def exampleEnvWithParser (valid : String → Bool) : Env String :=
  { (exampleEnv true ("", "", "", none) ("", none) none) with
    WaParseJID := fun s => (s, valid s) }

/-- A concrete set of collaborators for the remaining handlers, on top of
`base`: `bound` is what `ChatThreadGetTgFromWa` returns; the target hub
conversation is `-100555`; every other call succeeds and returns nothing of
interest. -/
def exampleAdminEnv (base : Env String) (bound : Int × Bool × GoError) : AdminEnv String :=
  { toEnv := base
    TargetChatID := -100555
    GitExecutable := "git"
    GoExecutable := "go"
    UpSince := "2024-01-01 00:00:00"
    UpTime := "1h0m0s"
    Version := "1.0.0"
    Modules := []
    TelegramCommands := [("help", "Get all the available commands")]
    JIDString := fun j => j
    IsGroupServer := fun j => strings.HasSuffix j "@g.us"
    EscapeString := fun s => s
    GetGroupInfo := fun j => (j, none)
    ChatThreadGetTgFromWa := fun _ _ => bound
    ChatThreadAddNewPair := fun _ _ _ => none
    ChatThreadGetAllPairs := fun _ => ([], none)
    MsgIdDropAllPairs := none
    TgSendToWhatsAppForward := fun _ _ _ _ _ _ => none
    GetJoinedGroups := ([], none)
    WaFuzzyFindContacts := fun _ => ([], 0, none)
    WaGetGroupName := fun j => j
    WaGetContactName := fun j => j
    ExecCommand := fun _ _ => none
    SyscallExec := fun _ => none
    FetchAppState := none
    GetAllContacts := ([], none)
    Connect := none
    JoinGroupWithLink := fun link => (link, none)
    GetProfilePictureInfo := fun _ => ("", none)
    HttpGet := fun _ => none
    ReadAll := ([], none)
    SendPhoto := fun _ _ _ _ => none
    Reply := fun _ => none }

/-- A command update: hub message `msgId` in thread `threadId` of the hub
conversation `-100555` whose `c.Args()` is `args`, replying to `replyTo`. -/
def exampleCommand (msgId threadId : Int) (args : List String)
    (replyTo : Option RepliedMessage) : Context :=
  { EffectiveChatId := -100555
    EffectiveMessage :=
      { MessageId := msgId, MessageThreadId := threadId, IsTopicMessage := threadId != 0,
        ReplyToMessage := replyTo }
    CallbackData := ""
    Args := args }

/-- A concrete bootstrap with no durable session: every call succeeds, the
pairing channel delivers `events`, the administrator is `1001`; `botIsNil`
tells whether the hub bot is missing, `notifyErr` is what the notification
returns, `idAfter` is the session identity when the channel is closed (`none`
when no pairing took place). -/
def exampleBootEnv (botIsNil : Bool) (notifyErr : GoError) (events : List QRChannelItem)
    (idAfter : Option String) : BootEnv :=
  { WhatsmeowDebugMode := false
    NewDevelopment := none
    ProductionBuild := none
    LoginDatabaseType := "sqlite3"
    LoginDatabaseURL := "file:wawebstore.db?foreign_keys=on"
    SqlstoreNew := none
    GetFirstDevice := none
    StoreID := none
    StoreIDAfterPairing := idAfter
    Connect := none
    qrChan := events
    TelegramBotIsNil := botIsNil
    OwnerID := 1001
    SendMessage := fun _ _ => notifyErr }

end Watg

/-! ## Theorems -/

namespace Watg

variable {J : Type}

/-- When the guards at lines 130-138 let the update through, the handler is the
resolution followed by the send. -/
theorem bridge_of_guards (w : Env J) (c : Context)
    (hauth : w.TgUpdateIsAuthorized c = true)
    (hcmd : (w.commands.any fun command => command c) = false) :
    BridgeTelegramToWhatsAppHandler w c =
      match bridgeResolve w c with
      | Except.error o => o
      | Except.ok (t, stanzaID, participantID, waChatID) =>
        bridgeSend w c t stanzaID participantID waChatID := by
  simp [BridgeTelegramToWhatsAppHandler, hauth, hcmd]

/-- When a guard at lines 130-138 stops the update, the handler does nothing
and returns `nil`. -/
theorem bridge_of_stopped (w : Env J) (c : Context)
    (h : w.TgUpdateIsAuthorized c = false ∨ (w.commands.any fun command => command c) = true) :
    BridgeTelegramToWhatsAppHandler w c = { trace := [], ret := none } := by
  unfold BridgeTelegramToWhatsAppHandler
  rcases h with h | h
  · simp [h]
  · by_cases ha : w.TgUpdateIsAuthorized c = true
    · rw [if_neg (by simp [ha]), if_pos h]
    · simp [ha]

/-- The reply branch at an unrecorded message: the resolution ends with the
error reply of lines 153-156. -/
theorem bridgeResolve_unrecorded (w : Env J) (c : Context) (r : RepliedMessage)
    (participantID waChatID : String)
    (hreply : c.EffectiveMessage.ReplyToMessage = some r)
    (hmarker : r.ForumTopicCreated = false)
    (hstore : w.MsgIdGetWaFromTg c.EffectiveChatId r.MessageId
        c.EffectiveMessage.MessageThreadId = ("", participantID, waChatID, none)) :
    bridgeResolve w c = Except.error
      { trace := [Effect.MsgIdGetWaFromTg c.EffectiveChatId r.MessageId
                    c.EffectiveMessage.MessageThreadId,
                  Effect.TgReplyWithErrorByContext "Cannot send to WhatsApp"
                    "corresponding stanza ID to replied to message not found"],
        ret := w.TgReplyWithErrorByContext c "Cannot send to WhatsApp"
                    "corresponding stanza ID to replied to message not found" } := by
  simp [bridgeResolve, hreply, hmarker, hstore]

/-- Without a real reply target the resolution is the thread branch. -/
theorem bridgeResolve_thread (w : Env J) (c : Context)
    (hreply : isRealReply c.EffectiveMessage.ReplyToMessage = false) :
    bridgeResolve w c = bridgeResolveThread w c := by
  unfold bridgeResolve
  cases h : c.EffectiveMessage.ReplyToMessage with
  | none => rfl
  | some r =>
    simp only [h, isRealReply] at hreply
    simp at hreply
    simp [hreply]

/-! ### C1: a reply to an unrecorded hub message -/

/-- C1, as stated, fails on an update the authorization guard stops: hub message
42 replies to the relayed message 41, the store has no stanza id for 41 (empty
stanza id, nil error), and `BridgeTelegramToWhatsAppHandler` returns `nil`
without reporting anything to the user. -/
theorem bridge_unrecorded_unauthorized_silent :
    (exampleMessage 42 7 (some (exampleReplied 41 7))).EffectiveMessage.ReplyToMessage
        = some (exampleReplied 41 7) ∧
    (exampleReplied 41 7).ForumTopicCreated = false ∧
    (exampleEnv false ("", "", "", none) ("", none) none).MsgIdGetWaFromTg (-100555) 41 7
        = ("", "", "", none) ∧
    BridgeTelegramToWhatsAppHandler (exampleEnv false ("", "", "", none) ("", none) none)
        (exampleMessage 42 7 (some (exampleReplied 41 7)))
      = { trace := [], ret := none } := by
  refine ⟨rfl, rfl, rfl, rfl⟩

/-- C1 (amended): for every inbound hub message replying to a message that is
not a thread-creation marker, if `MsgIdGetWaFromTg` for the replied-to message
returns an empty stanza id with a nil error, then
`BridgeTelegramToWhatsAppHandler` never calls the peer platform; when the
update is authorized and is not a registered command, it does exactly the
lookup followed by the error reply "Cannot send to WhatsApp" / "corresponding
stanza ID to replied to message not found" and returns what that reply
returns; otherwise it does nothing and returns nil. -/
theorem bridge_unrecorded_reply_reports_error (w : Env J) (c : Context) (r : RepliedMessage)
    (participantID waChatID : String)
    (hreply : c.EffectiveMessage.ReplyToMessage = some r)
    (hmarker : r.ForumTopicCreated = false)
    (hstore : w.MsgIdGetWaFromTg c.EffectiveChatId r.MessageId
        c.EffectiveMessage.MessageThreadId = ("", participantID, waChatID, none)) :
    (∀ e ∈ (BridgeTelegramToWhatsAppHandler w c).trace, e.isPeerCall = false) ∧
    (w.TgUpdateIsAuthorized c = true →
      (w.commands.any fun command => command c) = false →
      BridgeTelegramToWhatsAppHandler w c =
        { trace := [Effect.MsgIdGetWaFromTg c.EffectiveChatId r.MessageId
                      c.EffectiveMessage.MessageThreadId,
                    Effect.TgReplyWithErrorByContext "Cannot send to WhatsApp"
                      "corresponding stanza ID to replied to message not found"],
          ret := w.TgReplyWithErrorByContext c "Cannot send to WhatsApp"
                      "corresponding stanza ID to replied to message not found" }) ∧
    (w.TgUpdateIsAuthorized c = false ∨ (w.commands.any fun command => command c) = true →
      BridgeTelegramToWhatsAppHandler w c = { trace := [], ret := none }) := by
  have hrun : w.TgUpdateIsAuthorized c = true →
      (w.commands.any fun command => command c) = false →
      BridgeTelegramToWhatsAppHandler w c =
        { trace := [Effect.MsgIdGetWaFromTg c.EffectiveChatId r.MessageId
                      c.EffectiveMessage.MessageThreadId,
                    Effect.TgReplyWithErrorByContext "Cannot send to WhatsApp"
                      "corresponding stanza ID to replied to message not found"],
          ret := w.TgReplyWithErrorByContext c "Cannot send to WhatsApp"
                      "corresponding stanza ID to replied to message not found" } := by
    intro hauth hcmd
    rw [bridge_of_guards w c hauth hcmd,
      bridgeResolve_unrecorded w c r participantID waChatID hreply hmarker hstore]
  refine ⟨?_, hrun, bridge_of_stopped w c⟩
  by_cases hauth : w.TgUpdateIsAuthorized c = true
  · by_cases hcmd : (w.commands.any fun command => command c) = false
    · rw [hrun hauth hcmd]
      intro e he
      simp only [List.mem_cons, List.mem_singleton, List.not_mem_nil, or_false] at he
      rcases he with he | he <;> subst he <;> rfl
    · rw [bridge_of_stopped w c (Or.inr (by simpa using hcmd))]
      intro e he
      cases he
  · rw [bridge_of_stopped w c (Or.inl (by simpa using hauth))]
    intro e he
    cases he

/-- C1 (amended), at an authorized reply of hub message 42 to the unrecorded
message 41 in thread 7. -/
theorem bridge_unrecorded_reply_reports_error_witness :
    (exampleReplied 41 7).ForumTopicCreated = false ∧
    BridgeTelegramToWhatsAppHandler (exampleEnv true ("", "", "", none) ("", none) none)
        (exampleMessage 42 7 (some (exampleReplied 41 7)))
      = { trace := [Effect.MsgIdGetWaFromTg (-100555) 41 7,
                    Effect.TgReplyWithErrorByContext "Cannot send to WhatsApp"
                      "corresponding stanza ID to replied to message not found"],
          ret := none } :=
  ⟨rfl, (bridge_unrecorded_reply_reports_error
      (exampleEnv true ("", "", "", none) ("", none) none)
      (exampleMessage 42 7 (some (exampleReplied 41 7))) (exampleReplied 41 7) "" ""
      rfl rfl rfl).2.1 rfl rfl⟩

/-! ### C2: resolution through a bound thread -/

/-- The thread branch at a bound thread: line 174 is reached with the bound
address, an empty stanza id and an empty participant. -/
theorem bridgeResolveThread_bound (w : Env J) (c : Context) (A : String)
    (hbound : w.ChatThreadGetWaFromTg c.EffectiveChatId c.EffectiveMessage.MessageThreadId
        = (A, none))
    (hA : A ≠ "") :
    bridgeResolveThread w c = Except.ok
      ([Effect.ChatThreadGetWaFromTg c.EffectiveChatId c.EffectiveMessage.MessageThreadId],
        "", "", A) := by
  simp [bridgeResolveThread, hbound, hA]

/-- C2, as stated, fails on an update the authorization guard stops: hub message
42 has no reply-to, its thread 7 is bound to the non-broadcast address
`120363@g.us`, and `BridgeTelegramToWhatsAppHandler` sends nothing. -/
theorem bridge_bound_thread_unauthorized_silent :
    (exampleMessage 42 7 none).EffectiveMessage.ReplyToMessage = none ∧
    (exampleEnv false ("", "", "", none) ("120363@g.us", none) none).ChatThreadGetWaFromTg
        (-100555) 7 = ("120363@g.us", none) ∧
    strings.HasSuffix "120363@g.us" "@broadcast" = false ∧
    BridgeTelegramToWhatsAppHandler
        (exampleEnv false ("", "", "", none) ("120363@g.us", none) none)
        (exampleMessage 42 7 none)
      = { trace := [], ret := none } := by
  refine ⟨rfl, rfl, rfl, rfl⟩

/-- C2 (amended): for every authorized inbound hub message that is not a
registered command and has no reply-to (or replies to a thread-creation
marker), in a thread for which `ChatThreadGetWaFromTg` returns a non-empty
non-broadcast address `A` with a nil error, `BridgeTelegramToWhatsAppHandler`
does the lookup and then sends to the parse of exactly `A` with an empty
stanza id, an empty participant and the is-reply flag false, returning what the
send returns; an update stopped by a guard sends nothing. -/
theorem bridge_bound_thread_sends_to_bound_address (w : Env J) (c : Context) (A : String)
    (hreply : isRealReply c.EffectiveMessage.ReplyToMessage = false)
    (hbound : w.ChatThreadGetWaFromTg c.EffectiveChatId c.EffectiveMessage.MessageThreadId
        = (A, none))
    (hA : A ≠ "")
    (hnb : strings.HasSuffix A "@broadcast" = false) :
    (w.TgUpdateIsAuthorized c = true →
      (w.commands.any fun command => command c) = false →
      BridgeTelegramToWhatsAppHandler w c =
        { trace := [Effect.ChatThreadGetWaFromTg c.EffectiveChatId
                      c.EffectiveMessage.MessageThreadId,
                    Effect.TgSendToWhatsApp c.EffectiveMessage c.EffectiveMessage.ReplyToMessage
                      (w.WaParseJID A).1 "" "" false],
          ret := w.TgSendToWhatsApp c c.EffectiveMessage c.EffectiveMessage.ReplyToMessage
                      (w.WaParseJID A).1 "" "" false }) ∧
    (w.TgUpdateIsAuthorized c = false ∨ (w.commands.any fun command => command c) = true →
      BridgeTelegramToWhatsAppHandler w c = { trace := [], ret := none }) := by
  refine ⟨?_, bridge_of_stopped w c⟩
  intro hauth hcmd
  rw [bridge_of_guards w c hauth hcmd, bridgeResolve_thread w c hreply,
    bridgeResolveThread_bound w c A hbound hA]
  simp [bridgeSend, statusUpdateRewrite, hnb, hreply]

/-- C2 (amended), at the scenario of the specification: thread 7 of hub
conversation -100555 bound to `120363@g.us`, message 42 with no reply-to. -/
theorem bridge_bound_thread_sends_to_bound_address_witness :
    strings.HasSuffix "120363@g.us" "@broadcast" = false ∧
    BridgeTelegramToWhatsAppHandler
        (exampleEnv true ("", "", "", none) ("120363@g.us", none) none)
        (exampleMessage 42 7 none)
      = { trace := [Effect.ChatThreadGetWaFromTg (-100555) 7,
                    Effect.TgSendToWhatsApp (exampleMessage 42 7 none).EffectiveMessage none
                      "120363@g.us" "" "" false],
          ret := none } :=
  ⟨rfl, (bridge_bound_thread_sends_to_bound_address
      (exampleEnv true ("", "", "", none) ("120363@g.us", none) none)
      (exampleMessage 42 7 none) "120363@g.us" rfl rfl (by decide) rfl).1 rfl rfl⟩

/-! ### C3: resolution through an unbound thread -/

/-- The thread branch at an unbound thread: a "no mapping" reply when the
thread id is not 0, nothing at all when it is 0. -/
theorem bridgeResolveThread_unbound (w : Env J) (c : Context)
    (hunbound : w.ChatThreadGetWaFromTg c.EffectiveChatId c.EffectiveMessage.MessageThreadId
        = ("", none)) :
    bridgeResolveThread w c = Except.error
      (if c.EffectiveMessage.MessageThreadId ≠ 0 then
        { trace := [Effect.ChatThreadGetWaFromTg c.EffectiveChatId
                      c.EffectiveMessage.MessageThreadId,
                    Effect.TgReplyTextByContext
                      "No mapping found between current topic and a WhatsApp chat"],
          ret := w.TgReplyTextByContext c
                      "No mapping found between current topic and a WhatsApp chat" }
      else
        { trace := [Effect.ChatThreadGetWaFromTg c.EffectiveChatId
                      c.EffectiveMessage.MessageThreadId],
          ret := none }) := by
  simp only [bridgeResolveThread, hunbound]
  by_cases h : c.EffectiveMessage.MessageThreadId = 0 <;> simp [h]

/-- C3, as stated, fails on an update the authorization guard stops: hub message
42 has no reply-to, its thread 7 is not 0 and has no bound address, and
`BridgeTelegramToWhatsAppHandler` sends no "no mapping found" reply. -/
theorem bridge_unbound_thread_unauthorized_silent :
    (exampleMessage 42 7 none).EffectiveMessage.ReplyToMessage = none ∧
    (exampleMessage 42 7 none).EffectiveMessage.MessageThreadId ≠ 0 ∧
    (exampleEnv false ("", "", "", none) ("", none) none).ChatThreadGetWaFromTg
        (-100555) 7 = ("", none) ∧
    BridgeTelegramToWhatsAppHandler
        (exampleEnv false ("", "", "", none) ("", none) none) (exampleMessage 42 7 none)
      = { trace := [], ret := none } := by
  refine ⟨rfl, by decide, rfl, rfl⟩

/-- C3 (amended): for every inbound hub message resolved through the thread
binding (no reply-to, or a reply to a thread-creation marker) whose thread has
no bound address (`ChatThreadGetWaFromTg` returns the empty address with a nil
error), `BridgeTelegramToWhatsAppHandler` never calls the peer platform; when
the update is authorized and is not a registered command it does the lookup and
replies "No mapping found between current topic and a WhatsApp chat" if and
only if the thread id is not 0; for thread id 0 it makes no hub call at all and
returns nil; an update stopped by a guard gets no reply whatever its thread. -/
theorem bridge_unbound_thread_no_send (w : Env J) (c : Context)
    (hreply : isRealReply c.EffectiveMessage.ReplyToMessage = false)
    (hunbound : w.ChatThreadGetWaFromTg c.EffectiveChatId c.EffectiveMessage.MessageThreadId
        = ("", none)) :
    (∀ e ∈ (BridgeTelegramToWhatsAppHandler w c).trace, e.isPeerCall = false) ∧
    (w.TgUpdateIsAuthorized c = true →
      (w.commands.any fun command => command c) = false →
      BridgeTelegramToWhatsAppHandler w c =
        (if c.EffectiveMessage.MessageThreadId ≠ 0 then
          { trace := [Effect.ChatThreadGetWaFromTg c.EffectiveChatId
                        c.EffectiveMessage.MessageThreadId,
                      Effect.TgReplyTextByContext
                        "No mapping found between current topic and a WhatsApp chat"],
            ret := w.TgReplyTextByContext c
                        "No mapping found between current topic and a WhatsApp chat" }
        else
          { trace := [Effect.ChatThreadGetWaFromTg c.EffectiveChatId
                        c.EffectiveMessage.MessageThreadId],
            ret := none }) ∧
      (Effect.TgReplyTextByContext "No mapping found between current topic and a WhatsApp chat"
          ∈ (BridgeTelegramToWhatsAppHandler w c).trace ↔
        c.EffectiveMessage.MessageThreadId ≠ 0)) ∧
    (c.EffectiveMessage.MessageThreadId = 0 →
      (∀ e ∈ (BridgeTelegramToWhatsAppHandler w c).trace, e.isHubCall = false) ∧
      (BridgeTelegramToWhatsAppHandler w c).ret = none) ∧
    (w.TgUpdateIsAuthorized c = false ∨ (w.commands.any fun command => command c) = true →
      BridgeTelegramToWhatsAppHandler w c = { trace := [], ret := none }) := by
  have hrun : w.TgUpdateIsAuthorized c = true →
      (w.commands.any fun command => command c) = false →
      BridgeTelegramToWhatsAppHandler w c =
        (if c.EffectiveMessage.MessageThreadId ≠ 0 then
          { trace := [Effect.ChatThreadGetWaFromTg c.EffectiveChatId
                        c.EffectiveMessage.MessageThreadId,
                      Effect.TgReplyTextByContext
                        "No mapping found between current topic and a WhatsApp chat"],
            ret := w.TgReplyTextByContext c
                        "No mapping found between current topic and a WhatsApp chat" }
        else
          { trace := [Effect.ChatThreadGetWaFromTg c.EffectiveChatId
                        c.EffectiveMessage.MessageThreadId],
            ret := none }) := by
    intro hauth hcmd
    rw [bridge_of_guards w c hauth hcmd, bridgeResolve_thread w c hreply,
      bridgeResolveThread_unbound w c hunbound]
  have hcases : BridgeTelegramToWhatsAppHandler w c = { trace := [], ret := none } ∨
      (w.TgUpdateIsAuthorized c = true ∧
        (w.commands.any fun command => command c) = false) := by
    by_cases hauth : w.TgUpdateIsAuthorized c = true
    · by_cases hcmd : (w.commands.any fun command => command c) = false
      · exact Or.inr ⟨hauth, hcmd⟩
      · exact Or.inl (bridge_of_stopped w c (Or.inr (by simpa using hcmd)))
    · exact Or.inl (bridge_of_stopped w c (Or.inl (by simpa using hauth)))
  refine ⟨?_, ?_, ?_, bridge_of_stopped w c⟩
  · rcases hcases with h | ⟨hauth, hcmd⟩
    · rw [h]; intro e he; cases he
    · rw [hrun hauth hcmd]
      by_cases ht : c.EffectiveMessage.MessageThreadId = 0
      · simp [ht, Effect.isPeerCall]
      · simp [ht, Effect.isPeerCall]
  · intro hauth hcmd
    refine ⟨hrun hauth hcmd, ?_⟩
    rw [hrun hauth hcmd]
    by_cases ht : c.EffectiveMessage.MessageThreadId = 0
    · simp [ht]
    · simp [ht]
  · intro ht
    rcases hcases with h | ⟨hauth, hcmd⟩
    · rw [h]; exact ⟨(by intro e he; cases he), rfl⟩
    · rw [hrun hauth hcmd]
      simp [ht, Effect.isHubCall]

/-- C3 (amended), at the two scenarios: authorized message 42 with no reply-to
in the unbound thread 7 gets the "no mapping" reply, and in the unbound thread
0 gets nothing. -/
theorem bridge_unbound_thread_no_send_witness :
    BridgeTelegramToWhatsAppHandler
        (exampleEnv true ("", "", "", none) ("", none) none) (exampleMessage 42 7 none)
      = { trace := [Effect.ChatThreadGetWaFromTg (-100555) 7,
                    Effect.TgReplyTextByContext
                      "No mapping found between current topic and a WhatsApp chat"],
          ret := none } ∧
    (∀ e ∈ (BridgeTelegramToWhatsAppHandler
        (exampleEnv true ("", "", "", none) ("", none) none) (exampleMessage 42 0 none)).trace,
      e.isHubCall = false) ∧
    (BridgeTelegramToWhatsAppHandler
        (exampleEnv true ("", "", "", none) ("", none) none) (exampleMessage 42 0 none)).ret
      = none :=
  ⟨((bridge_unbound_thread_no_send (exampleEnv true ("", "", "", none) ("", none) none)
      (exampleMessage 42 7 none) rfl rfl).2.1 rfl rfl).1,
    (bridge_unbound_thread_no_send (exampleEnv true ("", "", "", none) ("", none) none)
      (exampleMessage 42 0 none) rfl rfl).2.2.1 rfl⟩

/-! ### C4 and C5: the send step -/

/-- An update that passes the guards and whose resolution reaches line 174
ends with the send of lines 174-184. -/
theorem bridge_of_resolved (w : Env J) (c : Context) (t : List (Effect J))
    (stanzaID participantID waChatID : String)
    (hauth : w.TgUpdateIsAuthorized c = true)
    (hcmd : (w.commands.any fun command => command c) = false)
    (hres : bridgeResolve w c = Except.ok (t, stanzaID, participantID, waChatID)) :
    BridgeTelegramToWhatsAppHandler w c = bridgeSend w c t stanzaID participantID waChatID := by
  rw [bridge_of_guards w c hauth hcmd, hres]

/-- The string parsed as send target is of the broadcast class only when the
resolved destination was, and then it is the participant value. -/
theorem statusUpdateRewrite_broadcast (w : Env J) (waChatID participantID : String)
    (h : strings.HasSuffix (statusUpdateRewrite w waChatID participantID).1 "@broadcast" = true) :
    strings.HasSuffix waChatID "@broadcast" = true ∧
      (statusUpdateRewrite w waChatID participantID).1 = participantID := by
  unfold statusUpdateRewrite at h ⊢
  by_cases hb : strings.HasSuffix waChatID "@broadcast" = true
  · simp [hb]
  · by_cases hp : participantID = ""
    · simp [hb, hp] at h
    · simp [hb, hp] at h

/-- On the thread branch the participant value and the stanza id with which
line 174 is reached are empty. -/
theorem bridgeResolveThread_participant (w : Env J) (c : Context) (t : List (Effect J))
    (stanzaID participantID waChatID : String)
    (hres : bridgeResolveThread w c = Except.ok (t, stanzaID, participantID, waChatID)) :
    participantID = "" ∧ stanzaID = "" := by
  unfold bridgeResolveThread at hres
  split at hres
  · cases hres
  · split at hres
    · split at hres <;> cases hres
    · cases hres
      exact ⟨rfl, rfl⟩

/-- On the reply branch the participant value with which line 174 is reached
is the participant address stored for the replied-to message. -/
theorem bridgeResolve_participant (w : Env J) (c : Context) (t : List (Effect J))
    (stanzaID participantID waChatID : String) (r : RepliedMessage)
    (hreply : c.EffectiveMessage.ReplyToMessage = some r)
    (hmarker : r.ForumTopicCreated = false)
    (hres : bridgeResolve w c = Except.ok (t, stanzaID, participantID, waChatID)) :
    participantID = (w.MsgIdGetWaFromTg c.EffectiveChatId r.MessageId
        c.EffectiveMessage.MessageThreadId).2.1 := by
  unfold bridgeResolve at hres
  simp only [hreply, hmarker] at hres
  simp only [Bool.not_false, if_true] at hres
  split at hres
  · cases hres
  · rename_i s p ch heq
    rw [heq]
    split at hres
    · cases hres
    · split at hres <;> cases hres <;> rfl

/-- C4, as stated, fails when the stored participant address is itself of the
broadcast class: hub message 42 replies to message 41, whose stored pair is
stanza `S1`, participant `status@broadcast`, chat `status@broadcast`; the
handler reaches the send step and passes `status@broadcast` as send target. -/
theorem bridge_broadcast_participant_is_sent_to :
    strings.HasSuffix "status@broadcast" "@broadcast" = true ∧
    BridgeTelegramToWhatsAppHandler
        (exampleEnv true ("S1", "status@broadcast", "status@broadcast", none) ("", none) none)
        (exampleMessage 42 7 (some (exampleReplied 41 7)))
      = { trace := [Effect.MsgIdGetWaFromTg (-100555) 41 7,
                    Effect.TgSendToWhatsApp
                      (exampleMessage 42 7 (some (exampleReplied 41 7))).EffectiveMessage
                      (some (exampleReplied 41 7)) "status@broadcast" "status@broadcast" "S1"
                      true],
          ret := none } := by
  refine ⟨rfl, rfl⟩

/-- C4 (amended): for every inbound hub message for which
`BridgeTelegramToWhatsAppHandler` reaches the send step (the guards pass and
the resolution of lines 146-172 yields a destination `waChatID`), the send
target is the parse of the rewritten destination; if `waChatID` ends in
`@broadcast` the rewritten destination is the participant value, which is the
stored participant address on the reply branch and the empty string on the
thread branch; and the rewritten destination is of the broadcast class only if
`waChatID` was and the participant value itself is of that class. -/
theorem bridge_broadcast_rewritten_to_participant (w : Env J) (c : Context)
    (t : List (Effect J)) (stanzaID participantID waChatID : String)
    (hauth : w.TgUpdateIsAuthorized c = true)
    (hcmd : (w.commands.any fun command => command c) = false)
    (hres : bridgeResolve w c = Except.ok (t, stanzaID, participantID, waChatID)) :
    BridgeTelegramToWhatsAppHandler w c =
      { trace := t ++ [Effect.TgSendToWhatsApp c.EffectiveMessage
            c.EffectiveMessage.ReplyToMessage
            (w.WaParseJID (statusUpdateRewrite w waChatID participantID).1).1
            (statusUpdateRewrite w waChatID participantID).2 stanzaID
            (isRealReply c.EffectiveMessage.ReplyToMessage)],
        ret := w.TgSendToWhatsApp c c.EffectiveMessage c.EffectiveMessage.ReplyToMessage
            (w.WaParseJID (statusUpdateRewrite w waChatID participantID).1).1
            (statusUpdateRewrite w waChatID participantID).2 stanzaID
            (isRealReply c.EffectiveMessage.ReplyToMessage) } ∧
    (strings.HasSuffix waChatID "@broadcast" = true →
      (statusUpdateRewrite w waChatID participantID).1 = participantID) ∧
    (strings.HasSuffix (statusUpdateRewrite w waChatID participantID).1 "@broadcast" = true →
      strings.HasSuffix waChatID "@broadcast" = true ∧
      (statusUpdateRewrite w waChatID participantID).1 = participantID ∧
      strings.HasSuffix participantID "@broadcast" = true) ∧
    (∀ r, c.EffectiveMessage.ReplyToMessage = some r → r.ForumTopicCreated = false →
      participantID = (w.MsgIdGetWaFromTg c.EffectiveChatId r.MessageId
        c.EffectiveMessage.MessageThreadId).2.1) ∧
    (isRealReply c.EffectiveMessage.ReplyToMessage = false → participantID = "") := by
  refine ⟨?_, ?_, ?_, ?_, ?_⟩
  · rw [bridge_of_resolved w c t stanzaID participantID waChatID hauth hcmd hres]
    rfl
  · intro hb
    simp [statusUpdateRewrite, hb]
  · intro hb
    have h := statusUpdateRewrite_broadcast w waChatID participantID hb
    refine ⟨h.1, h.2, ?_⟩
    rw [h.2] at hb
    exact hb
  · intro r hreply hmarker
    exact bridgeResolve_participant w c t stanzaID participantID waChatID r hreply hmarker hres
  · intro hreply
    rw [bridgeResolve_thread w c hreply] at hres
    exact (bridgeResolveThread_participant w c t stanzaID participantID waChatID hres).1

/-- C4 (amended), at a reply to a status update: the stored pair of message 41
is stanza `S1`, participant `6282000@s.whatsapp.net`, chat `status@broadcast`,
and the send goes to the participant. -/
theorem bridge_broadcast_rewritten_to_participant_witness :
    strings.HasSuffix "status@broadcast" "@broadcast" = true ∧
    BridgeTelegramToWhatsAppHandler
        (exampleEnv true ("S1", "6282000@s.whatsapp.net", "status@broadcast", none)
          ("", none) none)
        (exampleMessage 42 7 (some (exampleReplied 41 7)))
      = { trace := [Effect.MsgIdGetWaFromTg (-100555) 41 7,
                    Effect.TgSendToWhatsApp
                      (exampleMessage 42 7 (some (exampleReplied 41 7))).EffectiveMessage
                      (some (exampleReplied 41 7)) "6282000@s.whatsapp.net"
                      "6282000@s.whatsapp.net" "S1" true],
          ret := none } :=
  ⟨rfl, (bridge_broadcast_rewritten_to_participant
      (exampleEnv true ("S1", "6282000@s.whatsapp.net", "status@broadcast", none)
        ("", none) none)
      (exampleMessage 42 7 (some (exampleReplied 41 7)))
      [Effect.MsgIdGetWaFromTg (-100555) 41 7] "S1" "6282000@s.whatsapp.net"
      "status@broadcast" rfl rfl rfl).1⟩

/-- C5 (the code at the failing input): whenever `BridgeTelegramToWhatsAppHandler`
reaches the send step and `WaParseJID` rejects the rewritten destination
(`ok = false`), the handler still calls `TgSendToWhatsApp`, passing the address
component of the failed parse. -/
theorem bridge_sends_after_failed_parse (w : Env J) (c : Context)
    (t : List (Effect J)) (stanzaID participantID waChatID : String)
    (hauth : w.TgUpdateIsAuthorized c = true)
    (hcmd : (w.commands.any fun command => command c) = false)
    (hres : bridgeResolve w c = Except.ok (t, stanzaID, participantID, waChatID))
    (_hbad : (w.WaParseJID (statusUpdateRewrite w waChatID participantID).1).2 = false) :
    Effect.TgSendToWhatsApp c.EffectiveMessage c.EffectiveMessage.ReplyToMessage
        (w.WaParseJID (statusUpdateRewrite w waChatID participantID).1).1
        (statusUpdateRewrite w waChatID participantID).2 stanzaID
        (isRealReply c.EffectiveMessage.ReplyToMessage)
      ∈ (BridgeTelegramToWhatsAppHandler w c).trace := by
  rw [bridge_of_resolved w c t stanzaID participantID waChatID hauth hcmd hres]
  simp [bridgeSend]

/-- C5, at the failing input: message 42, not a reply, posted in thread 7 bound
to `status@broadcast`. The destination is rewritten to the empty participant,
the parser rejects the empty string, and the send is made all the same. -/
theorem bridge_sends_after_failed_parse_witness :
    ((exampleEnv true ("", "", "", none) ("status@broadcast", none) none).WaParseJID "").2
      = false ∧
    Effect.TgSendToWhatsApp (exampleMessage 42 7 none).EffectiveMessage none "" "" "" false
      ∈ (BridgeTelegramToWhatsAppHandler
          (exampleEnv true ("", "", "", none) ("status@broadcast", none) none)
          (exampleMessage 42 7 none)).trace :=
  ⟨rfl, bridge_sends_after_failed_parse
    (exampleEnv true ("", "", "", none) ("status@broadcast", none) none)
    (exampleMessage 42 7 none) [Effect.ChatThreadGetWaFromTg (-100555) 7] "" ""
    "status@broadcast" rfl rfl rfl rfl⟩

/-! ### The revoke token: splitting at underscores -/

/-- A character list without the separator is a single field. -/
theorem splitChars_of_not_mem (sep : Char) (l : List Char) (h : sep ∉ l) :
    strings.splitChars sep l = [l] := by
  induction l with
  | nil => rfl
  | cons c cs ih =>
    have hc : c ≠ sep := fun e => h (by simp [e])
    have hcs : sep ∉ cs := fun e => h (by simp [e])
    simp [strings.splitChars, hc, ih hcs]

/-- The first field ends at the first separator. -/
theorem splitChars_append_sep (sep : Char) (a b : List Char) (h : sep ∉ a) :
    strings.splitChars sep (a ++ sep :: b) = a :: strings.splitChars sep b := by
  induction a with
  | nil => simp [strings.splitChars]
  | cons c cs ih =>
    have hc : c ≠ sep := fun e => h (by simp [e])
    have hcs : sep ∉ cs := fun e => h (by simp [e])
    simp [strings.splitChars, hc, ih hcs]

/-- The token `revoke_S_C` splits into the three fields `revoke`, `S`, `C`. -/
theorem Split_revoke_token (S C : String) (hS : '_' ∉ S.toList) (hC : '_' ∉ C.toList) :
    strings.Split ("revoke_" ++ S ++ "_" ++ C) '_' = ["revoke", S, C] := by
  have h0 : '_' ∉ "revoke".toList := by decide
  have e : ("revoke_" ++ S ++ "_" ++ C).toList
      = "revoke".toList ++ '_' :: (S.toList ++ '_' :: C.toList) := by
    simp [String.toList]
  unfold strings.Split
  rw [e, splitChars_append_sep _ _ _ h0, splitChars_append_sep _ _ _ hS,
    splitChars_of_not_mem _ _ hC]
  rfl

/-- The token `revoke_S_C_tag` splits into the four fields `revoke`, `S`, `C`,
`tag`. -/
theorem Split_revoke_token_tag (S C tag : String) (hS : '_' ∉ S.toList)
    (hC : '_' ∉ C.toList) (htag : '_' ∉ tag.toList) :
    strings.Split ("revoke_" ++ S ++ "_" ++ C ++ "_" ++ tag) '_' = ["revoke", S, C, tag] := by
  have h0 : '_' ∉ "revoke".toList := by decide
  have e : ("revoke_" ++ S ++ "_" ++ C ++ "_" ++ tag).toList
      = "revoke".toList ++ '_' :: (S.toList ++ '_' :: (C.toList ++ '_' :: tag.toList)) := by
    simp [String.toList]
  unfold strings.Split
  rw [e, splitChars_append_sep _ _ _ h0, splitChars_append_sep _ _ _ hS,
    splitChars_append_sep _ _ _ hC, splitChars_of_not_mem _ _ htag]
  rfl

/-- An authorized callback whose data has three fields: the confirmation
render of lines 681-693. -/
theorem revokeCallback_three_fields (w : Env J) (c : Context) (d0 d1 d2 : String)
    (hauth : w.TgUpdateIsAuthorized c = true)
    (hdata : strings.Split c.CallbackData '_' = [d0, d1, d2]) :
    RevokeCallbackHandler w c =
      { trace := [Effect.EditMessageText "Revoke the message?" c.EffectiveChatId
                    c.EffectiveMessage.MessageId (Keyboard.revoke d1 d2 true),
                  Effect.Answer "Are you sure?" false 0],
        ret := w.EditMessageText "Revoke the message?" c.EffectiveChatId
                    c.EffectiveMessage.MessageId (Keyboard.revoke d1 d2 true) } := by
  simp [RevokeCallbackHandler, hauth, hdata]

/-- An authorized callback whose data has four fields, the fourth being none of
`n` and `y`: the answer of lines 741-749. -/
theorem revokeCallback_four_fields_other (w : Env J) (c : Context) (d0 d1 d2 d3 : String)
    (hauth : w.TgUpdateIsAuthorized c = true)
    (hdata : strings.Split c.CallbackData '_' = [d0, d1, d2, d3])
    (hn : d3 ≠ "n") (hy : d3 ≠ "y") :
    RevokeCallbackHandler w c =
      { trace := [Effect.Answer "Invalid callback query" true 60],
        ret := w.Answer "Invalid callback query" true 60 } := by
  simp [RevokeCallbackHandler, hauth, hdata, hn, hy, invalidCallbackQuery]

/-- An authorized callback whose data has the four fields `d0`, `d1`, `d2`,
`y`: the revoke send, then lines 717-739 by its result. -/
theorem revokeCallback_yes (w : Env J) (c : Context) (d0 d1 d2 : String)
    (hauth : w.TgUpdateIsAuthorized c = true)
    (hdata : strings.Split c.CallbackData '_' = [d0, d1, d2, "y"]) :
    RevokeCallbackHandler w c =
      match w.SendRevoke (w.WaParseJID d2).1 d1 with
      | some err =>
        { trace := [Effect.SendRevoke (w.WaParseJID d2).1 d1,
                    Effect.Answer ("Failed to send revoke message: " ++ err) true 60],
          ret := w.Answer ("Failed to send revoke message: " ++ err) true 60 }
      | none =>
        { trace := [Effect.SendRevoke (w.WaParseJID d2).1 d1,
                    Effect.Answer "Successfully revoked" true 60,
                    Effect.EditMessageText "<b>Revoked</b>" c.EffectiveChatId
                      c.EffectiveMessage.MessageId Keyboard.empty,
                    Effect.MsgIdDeletePair c.EffectiveChatId c.EffectiveMessage.MessageId],
          ret := w.Answer "Successfully revoked" true 60 } := by
  simp [RevokeCallbackHandler, hauth, hdata]

/-! ### C6: the confirmed tokens -/

/-- C6, as stated, fails: on an authorized press, the tokens `revoke_S1_C1_yes`
and `revoke_S1_C1_no` are both answered "Invalid callback query"; no revoke is
sent for the first and the control is not restored for the second. -/
theorem revoke_callback_yes_no_words_rejected :
    RevokeCallbackHandler (exampleEnv true ("", "", "", none) ("", none) none)
        (exampleCallback 42 "revoke_S1_C1_yes")
      = { trace := [Effect.Answer "Invalid callback query" true 60], ret := none } ∧
    RevokeCallbackHandler (exampleEnv true ("", "", "", none) ("", none) none)
        (exampleCallback 42 "revoke_S1_C1_no")
      = { trace := [Effect.Answer "Invalid callback query" true 60], ret := none } := by
  refine ⟨rfl, rfl⟩

/-- C6 (amended): for every stanza id `S` and chat address `C` containing no
underscore, on an authorized press `RevokeCallbackHandler` treats the token
`revoke_S_C_y` as the confirmed-yes shape (its first call is the peer revoke
for stanza `S` in the chat parsed from `C`) and the token `revoke_S_C_n` as the
abort shape (it re-renders "Successfully sent" with the keyboard built from
`(S, C)` without confirmation state and acknowledges "Aborted"); the tokens
`revoke_S_C_yes` and `revoke_S_C_no` are answered "Invalid callback query". -/
theorem revoke_callback_confirmed_tokens (w : Env J) (c : Context) (S C : String)
    (hS : '_' ∉ S.toList) (hC : '_' ∉ C.toList)
    (hauth : w.TgUpdateIsAuthorized c = true) :
    (c.CallbackData = "revoke_" ++ S ++ "_" ++ C ++ "_" ++ "y" →
      (RevokeCallbackHandler w c).trace.head? = some (Effect.SendRevoke (w.WaParseJID C).1 S)) ∧
    (c.CallbackData = "revoke_" ++ S ++ "_" ++ C ++ "_" ++ "n" →
      RevokeCallbackHandler w c =
        { trace := [Effect.EditMessageText "Successfully sent" c.EffectiveChatId
                      c.EffectiveMessage.MessageId (Keyboard.revoke S C false),
                    Effect.Answer "Aborted" true 0],
          ret := w.EditMessageText "Successfully sent" c.EffectiveChatId
                      c.EffectiveMessage.MessageId (Keyboard.revoke S C false) }) ∧
    (c.CallbackData = "revoke_" ++ S ++ "_" ++ C ++ "_" ++ "yes" ∨
        c.CallbackData = "revoke_" ++ S ++ "_" ++ C ++ "_" ++ "no" →
      RevokeCallbackHandler w c =
        { trace := [Effect.Answer "Invalid callback query" true 60],
          ret := w.Answer "Invalid callback query" true 60 }) := by
  refine ⟨?_, ?_, ?_⟩
  · intro hdata
    have hsplit := Split_revoke_token_tag S C "y" hS hC (by decide)
    rw [← hdata] at hsplit
    rw [revokeCallback_yes w c "revoke" S C hauth hsplit]
    cases w.SendRevoke (w.WaParseJID C).1 S <;> rfl
  · intro hdata
    have hsplit := Split_revoke_token_tag S C "n" hS hC (by decide)
    rw [← hdata] at hsplit
    simp [RevokeCallbackHandler, hauth, hsplit]
  · intro hdata
    rcases hdata with hdata | hdata
    · have hsplit := Split_revoke_token_tag S C "yes" hS hC (by decide)
      rw [← hdata] at hsplit
      exact revokeCallback_four_fields_other w c "revoke" S C "yes" hauth hsplit
        (by decide) (by decide)
    · have hsplit := Split_revoke_token_tag S C "no" hS hC (by decide)
      rw [← hdata] at hsplit
      exact revokeCallback_four_fields_other w c "revoke" S C "no" hauth hsplit
        (by decide) (by decide)

/-- C6 (amended), at the tokens `revoke_S1_C1_y` and `revoke_S1_C1_n` pressed
on the control of hub message 42. -/
theorem revoke_callback_confirmed_tokens_witness :
    (RevokeCallbackHandler (exampleEnv true ("", "", "", none) ("", none) none)
        (exampleCallback 42 "revoke_S1_C1_y")).trace.head?
      = some (Effect.SendRevoke "C1" "S1") ∧
    RevokeCallbackHandler (exampleEnv true ("", "", "", none) ("", none) none)
        (exampleCallback 42 "revoke_S1_C1_n")
      = { trace := [Effect.EditMessageText "Successfully sent" (-100555) 42
                      (Keyboard.revoke "S1" "C1" false),
                    Effect.Answer "Aborted" true 0],
          ret := none } :=
  ⟨(revoke_callback_confirmed_tokens (exampleEnv true ("", "", "", none) ("", none) none)
      (exampleCallback 42 "revoke_S1_C1_y") "S1" "C1" (by decide) (by decide) rfl).1 rfl,
    (revoke_callback_confirmed_tokens (exampleEnv true ("", "", "", none) ("", none) none)
      (exampleCallback 42 "revoke_S1_C1_n") "S1" "C1" (by decide) (by decide) rfl).2.1 rfl⟩

/-! ### C7: the initial press -/

/-- C7, as stated, fails on a press the authorization guard stops: for the
token `revoke_S1_C1` the handler returns `nil` without re-rendering the
control. -/
theorem revoke_callback_unauthorized_no_render :
    RevokeCallbackHandler (exampleEnv false ("", "", "", none) ("", none) none)
        (exampleCallback 42 "revoke_S1_C1")
      = { trace := [], ret := none } := by
  rfl

/-- C7 (amended): for every stanza id `S` and chat address `C` containing no
underscore, `RevokeCallbackHandler` on the token `revoke_S_C` performs no peer
call and no store write; on an authorized press it re-renders the control as
"Revoke the message?" with the confirmation keyboard built from exactly
`(S, C)` and acknowledges "Are you sure?"; on an unauthorized press it does
nothing. -/
theorem revoke_callback_initial_press (w : Env J) (c : Context) (S C : String)
    (hS : '_' ∉ S.toList) (hC : '_' ∉ C.toList)
    (hdata : c.CallbackData = "revoke_" ++ S ++ "_" ++ C) :
    (w.TgUpdateIsAuthorized c = true →
      RevokeCallbackHandler w c =
        { trace := [Effect.EditMessageText "Revoke the message?" c.EffectiveChatId
                      c.EffectiveMessage.MessageId (Keyboard.revoke S C true),
                    Effect.Answer "Are you sure?" false 0],
          ret := w.EditMessageText "Revoke the message?" c.EffectiveChatId
                      c.EffectiveMessage.MessageId (Keyboard.revoke S C true) }) ∧
    (w.TgUpdateIsAuthorized c = false →
      RevokeCallbackHandler w c = { trace := [], ret := none }) ∧
    (∀ e ∈ (RevokeCallbackHandler w c).trace, e.isPeerCall = false ∧ e.isStoreWrite = false) := by
  have hsplit := Split_revoke_token S C hS hC
  rw [← hdata] at hsplit
  have hun : w.TgUpdateIsAuthorized c = false →
      RevokeCallbackHandler w c = { trace := [], ret := none } := by
    intro h
    simp [RevokeCallbackHandler, h]
  refine ⟨fun hauth => revokeCallback_three_fields w c "revoke" S C hauth hsplit, hun, ?_⟩
  by_cases hauth : w.TgUpdateIsAuthorized c = true
  · rw [revokeCallback_three_fields w c "revoke" S C hauth hsplit]
    intro e he
    simp only [List.mem_cons, List.mem_singleton, List.not_mem_nil, or_false] at he
    rcases he with he | he <;> subst he <;> exact ⟨rfl, rfl⟩
  · rw [hun (by simpa using hauth)]
    intro e he
    cases he

/-- C7 (amended), at the token `revoke_S1_C1` pressed by an authorized user on
the control of hub message 42. -/
theorem revoke_callback_initial_press_witness :
    RevokeCallbackHandler (exampleEnv true ("", "", "", none) ("", none) none)
        (exampleCallback 42 "revoke_S1_C1")
      = { trace := [Effect.EditMessageText "Revoke the message?" (-100555) 42
                      (Keyboard.revoke "S1" "C1" true),
                    Effect.Answer "Are you sure?" false 0],
          ret := none } :=
  (revoke_callback_initial_press (exampleEnv true ("", "", "", none) ("", none) none)
    (exampleCallback 42 "revoke_S1_C1") "S1" "C1" (by decide) (by decide) rfl).1 rfl

/-! ### C8: tokens of no valid shape -/

/-- C8, as stated, fails: the data `revokeXYZ_S1_C1` passes the dispatcher
filter, is none of the three shapes `revoke_S_C`, `revoke_S_C_no`,
`revoke_S_C_yes` for any `S` and `C` (it does not start with `revoke_`), and an
authorized press of it makes `RevokeCallbackHandler` edit the message into the
confirmation render. -/
theorem revoke_callback_accepts_foreign_first_field :
    revokeCallbackFilter "revokeXYZ_S1_C1" = true ∧
    (∀ S C : String,
      "revokeXYZ_S1_C1" ≠ "revoke_" ++ S ++ "_" ++ C ∧
      "revokeXYZ_S1_C1" ≠ "revoke_" ++ S ++ "_" ++ C ++ "_no" ∧
      "revokeXYZ_S1_C1" ≠ "revoke_" ++ S ++ "_" ++ C ++ "_yes") ∧
    RevokeCallbackHandler (exampleEnv true ("", "", "", none) ("", none) none)
        (exampleCallback 42 "revokeXYZ_S1_C1")
      = { trace := [Effect.EditMessageText "Revoke the message?" (-100555) 42
                      (Keyboard.revoke "S1" "C1" true),
                    Effect.Answer "Are you sure?" false 0],
          ret := none } := by
  refine ⟨rfl, ?_, rfl⟩
  intro S C
  refine ⟨?_, ?_, ?_⟩ <;>
  · intro h
    have h2 := congrArg String.toList h
    simp [String.toList] at h2

/-- C8 (amended): for every authorized callback whose data, split at
underscores, has neither exactly three fields nor exactly four fields of which
the fourth is `n` or `y`, `RevokeCallbackHandler` answers "Invalid callback
query" and does nothing else: no message edit, no peer call, no store write. -/
theorem revoke_callback_rejects_other_tokens (w : Env J) (c : Context)
    (hauth : w.TgUpdateIsAuthorized c = true)
    (h3 : (strings.Split c.CallbackData '_').length ≠ 3)
    (h4 : (strings.Split c.CallbackData '_').length = 4 →
      (strings.Split c.CallbackData '_')[3]? ≠ some "n" ∧
      (strings.Split c.CallbackData '_')[3]? ≠ some "y") :
    RevokeCallbackHandler w c =
      { trace := [Effect.Answer "Invalid callback query" true 60],
        ret := w.Answer "Invalid callback query" true 60 } ∧
    (∀ e ∈ (RevokeCallbackHandler w c).trace,
      e.isEdit = false ∧ e.isPeerCall = false ∧ e.isStoreWrite = false) := by
  have hrun : RevokeCallbackHandler w c =
      { trace := [Effect.Answer "Invalid callback query" true 60],
        ret := w.Answer "Invalid callback query" true 60 } := by
    unfold RevokeCallbackHandler
    simp only [hauth, Bool.not_true, Bool.false_eq_true, if_false]
    generalize strings.Split c.CallbackData '_' = l at h3 h4
    rcases l with _ | ⟨d0, _ | ⟨d1, _ | ⟨d2, _ | ⟨d3, _ | ⟨d4, l⟩⟩⟩⟩⟩
    · rfl
    · rfl
    · rfl
    · exact absurd rfl h3
    · have h := h4 rfl
      simp at h
      simp [h.1, h.2, invalidCallbackQuery]
    · rfl
  refine ⟨hrun, ?_⟩
  rw [hrun]
  intro e he
  simp only [List.mem_singleton] at he
  subst he
  exact ⟨rfl, rfl, rfl⟩

/-- C8 (amended), at the data `revoke_S1`, which passes the dispatcher filter
and has two fields. -/
theorem revoke_callback_rejects_other_tokens_witness :
    revokeCallbackFilter "revoke_S1" = true ∧
    RevokeCallbackHandler (exampleEnv true ("", "", "", none) ("", none) none)
        (exampleCallback 42 "revoke_S1")
      = { trace := [Effect.Answer "Invalid callback query" true 60], ret := none } :=
  ⟨rfl, (revoke_callback_rejects_other_tokens
      (exampleEnv true ("", "", "", none) ("", none) none)
      (exampleCallback 42 "revoke_S1") rfl (by decide) (by decide)).1⟩

/-! ### C9: the confirmed-yes transition -/

/-- C9: in the confirmed-yes transition of `RevokeCallbackHandler` (an
authorized press whose data has the four fields `d0`, `S`, `C`, `y`), the
deletion `MsgIdDeletePair` is performed if and only if the peer revoke send
returned success; when the send fails with error `err` the handler performs
only the send and the acknowledgment "Failed to send revoke message: " followed
by `err` (no deletion, no edit of the control); when it succeeds the deletion
comes last, after the send, the acknowledgment and the edit. -/
theorem revoke_callback_deletes_iff_sent (w : Env J) (c : Context) (d0 S C : String)
    (hauth : w.TgUpdateIsAuthorized c = true)
    (hdata : strings.Split c.CallbackData '_' = [d0, S, C, "y"]) :
    (Effect.MsgIdDeletePair c.EffectiveChatId c.EffectiveMessage.MessageId
        ∈ (RevokeCallbackHandler w c).trace ↔
      w.SendRevoke (w.WaParseJID C).1 S = none) ∧
    ((∃ e ∈ (RevokeCallbackHandler w c).trace, e.isStoreWrite = true) ↔
      w.SendRevoke (w.WaParseJID C).1 S = none) ∧
    (∀ err, w.SendRevoke (w.WaParseJID C).1 S = some err →
      RevokeCallbackHandler w c =
        { trace := [Effect.SendRevoke (w.WaParseJID C).1 S,
                    Effect.Answer ("Failed to send revoke message: " ++ err) true 60],
          ret := w.Answer ("Failed to send revoke message: " ++ err) true 60 } ∧
      (∀ e ∈ (RevokeCallbackHandler w c).trace, e.isStoreWrite = false ∧ e.isEdit = false)) ∧
    (w.SendRevoke (w.WaParseJID C).1 S = none →
      RevokeCallbackHandler w c =
        { trace := [Effect.SendRevoke (w.WaParseJID C).1 S,
                    Effect.Answer "Successfully revoked" true 60,
                    Effect.EditMessageText "<b>Revoked</b>" c.EffectiveChatId
                      c.EffectiveMessage.MessageId Keyboard.empty,
                    Effect.MsgIdDeletePair c.EffectiveChatId c.EffectiveMessage.MessageId],
          ret := w.Answer "Successfully revoked" true 60 }) := by
  have hrun := revokeCallback_yes w c d0 S C hauth hdata
  cases hsend : w.SendRevoke (w.WaParseJID C).1 S with
  | none =>
    rw [hsend] at hrun
    simp only at hrun
    rw [hrun]
    refine ⟨by simp, ?_, by simp, fun _ => rfl⟩
    constructor
    · intro _
      trivial
    · intro _
      exact ⟨Effect.MsgIdDeletePair c.EffectiveChatId c.EffectiveMessage.MessageId,
        by simp, rfl⟩
  | some err =>
    rw [hsend] at hrun
    simp only at hrun
    rw [hrun]
    refine ⟨by simp, ?_, ?_, by simp⟩
    · constructor
      · rintro ⟨e, he, hw⟩
        simp only [List.mem_cons, List.mem_singleton, List.not_mem_nil, or_false] at he
        rcases he with he | he <;> subst he <;> cases hw
      · intro h
        cases h
    · intro err2 h
      cases h
      refine ⟨rfl, ?_⟩
      intro e he
      simp only [List.mem_cons, List.mem_singleton, List.not_mem_nil, or_false] at he
      rcases he with he | he <;> subst he <;> exact ⟨rfl, rfl⟩

/-- C9, at the token `revoke_S1_C1_y` pressed on the control of hub message 42
while the peer platform answers the revoke send with `not connected`: the
acknowledgment carries that message, nothing is edited, nothing is deleted. -/
theorem revoke_callback_deletes_iff_sent_witness :
    RevokeCallbackHandler (exampleEnv true ("", "", "", none) ("", none) (some "not connected"))
        (exampleCallback 42 "revoke_S1_C1_y")
      = { trace := [Effect.SendRevoke "C1" "S1",
                    Effect.Answer "Failed to send revoke message: not connected" true 60],
          ret := none } :=
  ((revoke_callback_deletes_iff_sent
      (exampleEnv true ("", "", "", none) ("", none) (some "not connected"))
      (exampleCallback 42 "revoke_S1_C1_y") "revoke" "S1" "C1" rfl rfl).2.2.1
    "not connected" rfl).1

/-! ### C10: the direct revoke command -/

/-- C10 (the code at the failing input): for every authorized `/revoke` issued
as a reply to a hub message (not a topic-closed marker) for which
`MsgIdGetWaFromTg` returns an empty stanza id with a nil error,
`RevokeCommandHandler` does not stop: it sends a revoke for the empty stanza id
to the parse of the (empty or not) stored chat address, and when that send
succeeds it replies "Successfully revoked". -/
theorem revoke_command_unrecorded_still_sends (w : Env J) (c : Context) (r : RepliedMessage)
    (participantID waChatID : String)
    (hauth : w.TgUpdateIsAuthorized c = true)
    (hreply : c.EffectiveMessage.ReplyToMessage = some r)
    (hclosed : r.ForumTopicClosed = false)
    (hstore : w.MsgIdGetWaFromTg c.EffectiveChatId r.MessageId r.MessageThreadId
        = ("", participantID, waChatID, none)) :
    Effect.SendRevoke (w.WaParseJID waChatID).1 "" ∈ (RevokeCommandHandler w c).trace ∧
    (w.SendRevoke (w.WaParseJID waChatID).1 "" = none →
      RevokeCommandHandler w c =
        { trace := [Effect.MsgIdGetWaFromTg c.EffectiveChatId r.MessageId r.MessageThreadId,
                    Effect.SendRevoke (w.WaParseJID waChatID).1 "",
                    Effect.TgReplyTextByContext "<b>Successfully revoked</b>"],
          ret := w.TgReplyTextByContext c "<b>Successfully revoked</b>" }) := by
  unfold RevokeCommandHandler
  simp only [hauth, hreply, hclosed, hstore]
  cases hsend : w.SendRevoke (w.WaParseJID waChatID).1 "" <;> simp

/-- C10, at the failing input: an authorized `/revoke` (hub message 42) replying
to hub message 41, for which the store holds no pair. A revoke for the empty
stanza id is sent and success is reported. -/
theorem revoke_command_unrecorded_still_sends_witness :
    RevokeCommandHandler (exampleEnv true ("", "", "", none) ("", none) none)
        (exampleMessage 42 7 (some (exampleReplied 41 7)))
      = { trace := [Effect.MsgIdGetWaFromTg (-100555) 41 7,
                    Effect.SendRevoke "" "",
                    Effect.TgReplyTextByContext "<b>Successfully revoked</b>"],
          ret := none } :=
  (revoke_command_unrecorded_still_sends (exampleEnv true ("", "", "", none) ("", none) none)
    (exampleMessage 42 7 (some (exampleReplied 41 7))) (exampleReplied 41 7) "" ""
    rfl rfl rfl rfl).2 rfl

/-! ### C11: the direct revoke command writes nothing -/

/-- A trace without store writes leaves every store as it is. -/
theorem applyTrace_of_no_write (s : Store) (t : List (Effect J))
    (h : ∀ e ∈ t, e.isStoreWrite = false) : s.applyTrace t = s := by
  unfold Store.applyTrace
  induction t generalizing s with
  | nil => rfl
  | cons e rest ih =>
    have he : Store.apply s e = s := by
      have h1 := h e (List.mem_cons_self e rest)
      cases e <;> first | rfl | cases h1
    rw [List.foldl_cons, he]
    exact ih s (fun e2 h2 => h e2 (List.mem_cons_of_mem e h2))

/-- C11: on every execution path of `RevokeCommandHandler` (unauthorized,
usage reply, lookup failure, peer send failure, peer send success) the handler
makes no call that writes to the store, so every store is left as it is by the
handler's calls and every `MessageIdPair` lookup answers after the handler as
it did before, the pair of a successfully revoked message included. -/
theorem revoke_command_leaves_store (w : Env J) (c : Context) :
    (∀ e ∈ (RevokeCommandHandler w c).trace, e.isStoreWrite = false) ∧
    (∀ s : Store, s.applyTrace (RevokeCommandHandler w c).trace = s) ∧
    (∀ (s : Store) (tgChatId tgMsgId tgThreadId : Int),
      (s.applyTrace (RevokeCommandHandler w c).trace).MsgIdGetWaFromTg tgChatId tgMsgId tgThreadId
        = s.MsgIdGetWaFromTg tgChatId tgMsgId tgThreadId) := by
  have hno : ∀ e ∈ (RevokeCommandHandler w c).trace, e.isStoreWrite = false := by
    unfold RevokeCommandHandler
    by_cases hauth : w.TgUpdateIsAuthorized c = true
    · cases hr : c.EffectiveMessage.ReplyToMessage with
      | none => simp [hauth, Effect.isStoreWrite]
      | some r =>
        by_cases hclosed : r.ForumTopicClosed = true
        · simp [hauth, hclosed, Effect.isStoreWrite]
        · rcases hl : w.MsgIdGetWaFromTg c.EffectiveChatId r.MessageId r.MessageThreadId with
            ⟨a, b, d, _ | err⟩
          · cases hs : w.SendRevoke (w.WaParseJID d).1 a <;>
              simp [hauth, hclosed, hl, hs, Effect.isStoreWrite]
          · simp [hauth, hclosed, hl, Effect.isStoreWrite]
    · simp [hauth]
  refine ⟨hno, fun s => applyTrace_of_no_write s _ hno, fun s a b d => ?_⟩
  rw [applyTrace_of_no_write s _ hno]

/-! ### C12: bind commands and the one-pair-per-peer invariant -/

/-- When the address is found in the target hub conversation, lines 440-446
(482-488) answer that a topic exists and stop. -/
theorem bindPeerToThread_found (w : AdminEnv J) (c : Context) (t : List (Effect J))
    (waChatId : String) (th : Int)
    (h : w.ChatThreadGetTgFromWa waChatId w.TargetChatID = (th, true, none)) :
    bindPeerToThread w c t waChatId =
      replyText w c (t ++ [Effect.ChatThreadGetTgFromWa waChatId w.TargetChatID])
        "A topic already exists in database for the given WhatsApp chat. Aborting..." := by
  simp [bindPeerToThread, h]

/-- The only store write of lines 440-454 (482-496) is the `ChatThreadAddNewPair`
made after a lookup that found nothing. -/
theorem bindPeerToThread_write (w : AdminEnv J) (c : Context) (t : List (Effect J))
    (waChatId : String) (e : Effect J)
    (he : e ∈ (bindPeerToThread w c t waChatId).trace) (hw : e.isStoreWrite = true) :
    e ∈ t ∨ (e = Effect.ChatThreadAddNewPair waChatId w.TargetChatID
          c.EffectiveMessage.MessageThreadId ∧
        (w.ChatThreadGetTgFromWa waChatId w.TargetChatID).2.1 = false) := by
  unfold bindPeerToThread at he
  rcases hl : w.ChatThreadGetTgFromWa waChatId w.TargetChatID with ⟨th, found, _ | err⟩
  · cases found
    · cases ha : w.ChatThreadAddNewPair waChatId w.TargetChatID
          c.EffectiveMessage.MessageThreadId <;>
      · simp only [hl, ha, replyText, replyError, List.mem_append, List.mem_singleton] at he
        rcases he with ((he | he) | he) | he
        · exact Or.inl he
        · subst he; cases hw
        · exact Or.inr ⟨he, rfl⟩
        · subst he; cases hw
    · simp only [hl, replyText, List.mem_append, List.mem_singleton] at he
      rcases he with (he | he) | he
      · exact Or.inl he
      · subst he; cases hw
      · subst he; cases hw
  · simp only [hl, replyError, List.mem_append, List.mem_singleton] at he
    rcases he with (he | he) | he
    · exact Or.inl he
    · subst he; cases hw
    · subst he; cases hw

/-- A bind command writes to the store only by adding a pair for its own peer
address, in the target hub conversation and the thread of the command, after a
lookup of that address in that conversation found nothing. -/
theorem bind_write_only_when_free (w : AdminEnv J) (cmd : BindCommand) (e : Effect J)
    (he : e ∈ (cmd.run w).trace) (hw : e.isStoreWrite = true) :
    ∃ addr, cmd.peerAddress w = some addr ∧
      e = Effect.ChatThreadAddNewPair addr w.TargetChatID
          cmd.context.EffectiveMessage.MessageThreadId ∧
      (w.ChatThreadGetTgFromWa addr w.TargetChatID).2.1 = false := by
  cases cmd with
  | group c =>
    simp only [BindCommand.run, SetTargetGroupChatHandler] at he
    simp only [BindCommand.peerAddress, BindCommand.context]
    by_cases hauth : w.TgUpdateIsAuthorized c = true
    · simp only [hauth, Bool.not_true, Bool.false_eq_true, if_false] at he
      rcases hargs : c.Args with _ | ⟨a0, _ | ⟨a, rest⟩⟩
      · simp only [hargs, replyText, List.nil_append, List.mem_singleton] at he
        subst he; cases hw
      · simp only [hargs, replyText, List.nil_append, List.mem_singleton] at he
        subst he; cases hw
      · simp only [hargs] at he
        split at he
        · simp only [replyText, List.nil_append, List.mem_singleton] at he
          subst he; cases hw
        · rcases hg : w.GetGroupInfo (w.WaParseJID a).1 with ⟨j2, _ | err⟩
          · simp only [hg] at he
            rcases bindPeerToThread_write w c _ _ e he hw with h | h
            · simp only [List.mem_singleton] at h
              subst h; cases hw
            · refine ⟨_, rfl, ?_, ?_⟩
              · rw [hg]; exact h.1
              · rw [hg]; exact h.2
          · simp only [hg, replyError, List.mem_append, List.mem_singleton] at he
            rcases he with he | he <;> subst he <;> cases hw
    · simp [hauth] at he
  | user c =>
    simp only [BindCommand.run, SetTargetPrivateChatHandler] at he
    simp only [BindCommand.peerAddress, BindCommand.context]
    by_cases hauth : w.TgUpdateIsAuthorized c = true
    · simp only [hauth, Bool.not_true, Bool.false_eq_true, if_false] at he
      rcases hargs : c.Args with _ | ⟨a0, _ | ⟨a, rest⟩⟩
      · simp only [hargs, replyText, List.nil_append, List.mem_singleton] at he
        subst he; cases hw
      · simp only [hargs, replyText, List.nil_append, List.mem_singleton] at he
        subst he; cases hw
      · simp only [hargs] at he
        split at he
        · simp only [replyText, List.nil_append, List.mem_singleton] at he
          subst he; cases hw
        · rcases bindPeerToThread_write w c _ _ e he hw with h | h
          · cases h
          · exact ⟨_, rfl, h.1, h.2⟩
    · simp [hauth] at he

/-- One call of a handler keeps the invariant of the chat-thread table. -/
theorem apply_uniquePeer (s : Store) (e : Effect J) (hs : s.uniquePeer) :
    (s.apply e).uniquePeer := by
  cases e
  case ChatThreadAddNewPair waChatId tgChatId tgThreadId =>
    simp only [Store.apply, Store.ChatThreadAddNewPair]
    split
    · exact hs
    · rename_i hany
      unfold Store.uniquePeer at hs ⊢
      simp only [List.map_append, List.map_cons, List.map_nil]
      rw [List.nodup_append]
      refine ⟨hs, List.nodup_singleton _, ?_⟩
      intro a ha hb
      simp only [List.mem_singleton] at hb
      subst hb
      apply hany
      simp only [List.mem_map] at ha
      obtain ⟨p, hp, hpa⟩ := ha
      simp only [List.any_eq_true, beq_iff_eq]
      exact ⟨p, hp, hpa⟩
  all_goals exact hs

/-- The calls of a handler keep the invariant of the chat-thread table. -/
theorem applyTrace_uniquePeer (s : Store) (t : List (Effect J)) (hs : s.uniquePeer) :
    (s.applyTrace t).uniquePeer := by
  unfold Store.applyTrace
  induction t generalizing s with
  | nil => exact hs
  | cons e rest ih =>
    rw [List.foldl_cons]
    exact ih (s.apply e) (apply_uniquePeer s e hs)

/-- A bind command that passes its guards and whose peer address is found in
the target hub conversation ends with the reply that a topic exists. -/
theorem bind_found_reports (w : AdminEnv J) (cmd : BindCommand) (addr : String) (th : Int)
    (haddr : cmd.peerAddress w = some addr)
    (hfound : w.ChatThreadGetTgFromWa addr w.TargetChatID = (th, true, none))
    (hguards : cmd.passesGuards w = true) :
    (cmd.run w).trace.getLast? = some (Effect.TgReplyTextByContext
        "A topic already exists in database for the given WhatsApp chat. Aborting...") ∧
    (cmd.run w).ret = w.TgReplyTextByContext cmd.context
        "A topic already exists in database for the given WhatsApp chat. Aborting..." := by
  cases cmd with
  | group c =>
    simp only [BindCommand.peerAddress, BindCommand.passesGuards] at haddr hguards
    rcases hargs : c.Args with _ | ⟨a0, _ | ⟨a, rest⟩⟩
    · simp [hargs] at hguards
    · simp [hargs] at hguards
    · simp only [hargs, Option.some.injEq] at haddr
      simp only [hargs, Bool.and_eq_true, bne_iff_ne, ne_eq, Option.isNone_iff_eq_none]
        at hguards
      obtain ⟨⟨⟨hauth, htopic⟩, hthread⟩, hinfo⟩ := hguards
      rcases hg : w.GetGroupInfo (w.WaParseJID a).1 with ⟨j2, gerr⟩
      rw [hg] at haddr hinfo
      simp only at hinfo
      subst hinfo
      simp only at haddr
      subst haddr
      simp [BindCommand.run, SetTargetGroupChatHandler, BindCommand.context, hauth, hargs,
        htopic, hthread, hg, bindPeerToThread_found w c _ _ th hfound, replyText]
  | user c =>
    simp only [BindCommand.peerAddress, BindCommand.passesGuards] at haddr hguards
    rcases hargs : c.Args with _ | ⟨a0, _ | ⟨a, rest⟩⟩
    · simp [hargs] at hguards
    · simp [hargs] at hguards
    · simp only [hargs, Option.some.injEq] at haddr
      simp only [hargs, Bool.and_eq_true, bne_iff_ne, ne_eq] at hguards
      obtain ⟨⟨hauth, htopic⟩, hthread⟩ := hguards
      subst haddr
      simp [BindCommand.run, SetTargetPrivateChatHandler, BindCommand.context, hauth, hargs,
        htopic, hthread, bindPeerToThread_found w c _ _ th hfound, replyText]

/-- A call that is not a store write leaves the store as it is, whatever the
write does. -/
theorem applyWith_of_no_write (put : PutPair) (s : Store) (e : Effect J)
    (h : e.isStoreWrite = false) : s.applyWith put e = s := by
  cases e <;> first | rfl | cases h

/-- A trace without store writes leaves the store as it is, whatever the write
does. -/
theorem applyTraceWith_of_no_write (put : PutPair) (s : Store) (t : List (Effect J))
    (h : ∀ e ∈ t, e.isStoreWrite = false) : s.applyTraceWith put t = s := by
  unfold Store.applyTraceWith
  induction t generalizing s with
  | nil => rfl
  | cons e rest ih =>
    rw [List.foldl_cons, applyWith_of_no_write put s e (h e (List.mem_cons_self e rest))]
    exact ih s (fun e2 h2 => h e2 (List.mem_cons_of_mem e h2))

/-- A trace whose only store write is one `ChatThreadAddNewPair` changes the
store by that write. -/
theorem applyTraceWith_single_add (put : PutPair) (s : Store) (pre post : List (Effect J))
    (waChatId : String) (tgChatId tgThreadId : Int)
    (hpre : ∀ e ∈ pre, e.isStoreWrite = false) (hpost : ∀ e ∈ post, e.isStoreWrite = false) :
    s.applyTraceWith put (pre ++ Effect.ChatThreadAddNewPair waChatId tgChatId tgThreadId :: post)
      = (put s waChatId tgChatId tgThreadId).1 := by
  have h1 := applyTraceWith_of_no_write put s pre hpre
  have h2 := applyTraceWith_of_no_write put (put s waChatId tgChatId tgThreadId).1 post hpost
  unfold Store.applyTraceWith at h1 h2 ⊢
  rw [List.foldl_append, h1, List.foldl_cons]
  exact h2

/-- The trace of lines 440-454 (482-496) either holds no store write beyond
those of `t`, or is the lookup that found nothing, the `ChatThreadAddNewPair`
and one reply. -/
theorem bindPeerToThread_shape (w : AdminEnv J) (c : Context) (t : List (Effect J))
    (waChatId : String) (ht : ∀ e ∈ t, e.isStoreWrite = false) :
    (∀ e ∈ (bindPeerToThread w c t waChatId).trace, e.isStoreWrite = false) ∨
    ((w.ChatThreadGetTgFromWa waChatId w.TargetChatID).2.1 = false ∧
      ∃ pre post : List (Effect J),
        (∀ e ∈ pre, e.isStoreWrite = false) ∧ (∀ e ∈ post, e.isStoreWrite = false) ∧
        (bindPeerToThread w c t waChatId).trace =
          pre ++ Effect.ChatThreadAddNewPair waChatId w.TargetChatID
            c.EffectiveMessage.MessageThreadId :: post) := by
  have hlook : ∀ e ∈ t ++ [Effect.ChatThreadGetTgFromWa waChatId w.TargetChatID],
      e.isStoreWrite = false := by
    intro e he
    rcases List.mem_append.1 he with h | h
    · exact ht e h
    · simp only [List.mem_singleton] at h
      subst h; rfl
  unfold bindPeerToThread
  rcases hl : w.ChatThreadGetTgFromWa waChatId w.TargetChatID with ⟨th, found, _ | err⟩
  · cases found
    · right
      refine ⟨rfl, t ++ [Effect.ChatThreadGetTgFromWa waChatId w.TargetChatID], ?_⟩
      cases ha : w.ChatThreadAddNewPair waChatId w.TargetChatID
          c.EffectiveMessage.MessageThreadId
      · refine ⟨[Effect.TgReplyTextByContext "Successfully mapped"], hlook, ?_, ?_⟩
        · intro e he
          simp only [List.mem_singleton] at he
          subst he; rfl
        · simp [replyText]
      · rename_i err
        refine ⟨[Effect.TgReplyWithErrorByContext
          "Failed to add the mapping in database. Unsuccessful" err], hlook, ?_, ?_⟩
        · intro e he
          simp only [List.mem_singleton] at he
          subst he; rfl
        · simp [replyError]
    · left
      intro e he
      simp only [replyText, List.mem_append, List.mem_singleton] at he
      rcases he with he | he
      · exact hlook e (List.mem_append.2 (by simpa using he))
      · subst he; rfl
  · left
    intro e he
    simp only [replyError, List.mem_append, List.mem_singleton] at he
    rcases he with he | he
    · exact hlook e (List.mem_append.2 (by simpa using he))
    · subst he; rfl

/-- The trace of a bind command either holds no store write, or holds exactly
one, the `ChatThreadAddNewPair` for an address the lookup in the target hub
conversation did not find. -/
theorem bind_trace_shape (w : AdminEnv J) (cmd : BindCommand) :
    (∀ e ∈ (cmd.run w).trace, e.isStoreWrite = false) ∨
    (∃ (addr : String) (pre post : List (Effect J)),
      (w.ChatThreadGetTgFromWa addr w.TargetChatID).2.1 = false ∧
      (∀ e ∈ pre, e.isStoreWrite = false) ∧ (∀ e ∈ post, e.isStoreWrite = false) ∧
      (cmd.run w).trace =
        pre ++ Effect.ChatThreadAddNewPair addr w.TargetChatID
          cmd.context.EffectiveMessage.MessageThreadId :: post) := by
  have hnone : ∀ (o : Outcome J), (∀ e ∈ o.trace, e.isStoreWrite = false) →
      (cmd.run w) = o →
      (∀ e ∈ (cmd.run w).trace, e.isStoreWrite = false) := by
    intro o ho heq
    rw [heq]; exact ho
  have hreply : ∀ text : String, ∀ e ∈ (replyText w cmd.context [] text).trace,
      e.isStoreWrite = false := by
    intro text e he
    simp only [replyText, List.nil_append, List.mem_singleton] at he
    subst he; rfl
  cases cmd with
  | group c =>
    simp only [BindCommand.context] at hreply ⊢
    by_cases hauth : w.TgUpdateIsAuthorized c = true
    · rcases hargs : c.Args with _ | ⟨a0, _ | ⟨a, rest⟩⟩
      · left
        simp only [BindCommand.run, SetTargetGroupChatHandler, hauth, hargs, Bool.not_true,
          Bool.false_eq_true, if_false]
        exact hreply _
      · left
        simp only [BindCommand.run, SetTargetGroupChatHandler, hauth, hargs, Bool.not_true,
          Bool.false_eq_true, if_false]
        exact hreply _
      · by_cases hguard : (!c.EffectiveMessage.IsTopicMessage ||
            c.EffectiveMessage.MessageThreadId == 0) = true
        · left
          simp only [BindCommand.run, SetTargetGroupChatHandler, hauth, hargs, Bool.not_true,
            Bool.false_eq_true, if_false, hguard, if_true]
          exact hreply _
        · rcases hg : w.GetGroupInfo (w.WaParseJID a).1 with ⟨j2, _ | err⟩
          · have hrun : (BindCommand.group c).run w =
                bindPeerToThread w c [Effect.GetGroupInfo (w.WaParseJID a).1]
                  (w.JIDString j2) := by
              simp only [BindCommand.run, SetTargetGroupChatHandler, hauth, hargs, Bool.not_true,
                Bool.false_eq_true, if_false, hguard, hg]
            rw [hrun]
            rcases bindPeerToThread_shape w c [Effect.GetGroupInfo (w.WaParseJID a).1]
                (w.JIDString j2) (by
                  intro e he
                  simp only [List.mem_singleton] at he
                  subst he; rfl) with h | ⟨hfree, pre, post, hpre, hpost, heq⟩
            · exact Or.inl h
            · exact Or.inr ⟨w.JIDString j2, pre, post, hfree, hpre, hpost, heq⟩
          · left
            simp only [BindCommand.run, SetTargetGroupChatHandler, hauth, hargs, Bool.not_true,
              Bool.false_eq_true, if_false, hguard, hg]
            intro e he
            simp only [replyError, List.mem_append, List.mem_singleton] at he
            rcases he with he | he <;> subst he <;> rfl
    · left
      simp [BindCommand.run, SetTargetGroupChatHandler, hauth]
  | user c =>
    simp only [BindCommand.context] at hreply ⊢
    by_cases hauth : w.TgUpdateIsAuthorized c = true
    · rcases hargs : c.Args with _ | ⟨a0, _ | ⟨a, rest⟩⟩
      · left
        simp only [BindCommand.run, SetTargetPrivateChatHandler, hauth, hargs, Bool.not_true,
          Bool.false_eq_true, if_false]
        exact hreply _
      · left
        simp only [BindCommand.run, SetTargetPrivateChatHandler, hauth, hargs, Bool.not_true,
          Bool.false_eq_true, if_false]
        exact hreply _
      · by_cases hguard : (!c.EffectiveMessage.IsTopicMessage ||
            c.EffectiveMessage.MessageThreadId == 0) = true
        · left
          simp only [BindCommand.run, SetTargetPrivateChatHandler, hauth, hargs, Bool.not_true,
            Bool.false_eq_true, if_false, hguard, if_true]
          exact hreply _
        · have hrun : (BindCommand.user c).run w =
              bindPeerToThread w c [] (w.JIDString (w.WaParseJID a).1) := by
            simp only [BindCommand.run, SetTargetPrivateChatHandler, hauth, hargs, Bool.not_true,
              Bool.false_eq_true, if_false, hguard]
          rw [hrun]
          rcases bindPeerToThread_shape w c [] (w.JIDString (w.WaParseJID a).1)
              (by intro e he; cases he) with h | ⟨hfree, pre, post, hpre, hpost, heq⟩
          · exact Or.inl h
          · exact Or.inr ⟨_, pre, post, hfree, hpre, hpost, heq⟩
    · left
      simp [BindCommand.run, SetTargetPrivateChatHandler, hauth]

/-- A write for an address the lookup in the conversation `tgChatId` did not
find keeps the table duplicate-free and inside that conversation, when every
pair of the table belongs to it and the write appends or refuses. -/
theorem put_keeps_uniquePeer (put : PutPair) (hput : put.appendsOrRefuses) (s : Store)
    (addr : String) (tgChatId tgThreadId : Int)
    (hs : s.uniquePeer) (hc : s.inConversation tgChatId)
    (hfree : (s.ChatThreadGetTgFromWa addr tgChatId).2.1 = false) :
    (put s addr tgChatId tgThreadId).1.uniquePeer ∧
    (put s addr tgChatId tgThreadId).1.inConversation tgChatId := by
  rcases hput s addr tgChatId tgThreadId with h | h
  · rw [h]; exact ⟨hs, hc⟩
  · rw [h]
    have habsent : ∀ p ∈ s.chatThreadPairs, p.ID ≠ addr := by
      intro p hp hid
      unfold Store.ChatThreadGetTgFromWa at hfree
      cases hfind : s.chatThreadPairs.find?
          (fun p => p.ID == addr && p.TgChatId == tgChatId) with
      | some q => rw [hfind] at hfree; cases hfree
      | none =>
        have := List.find?_eq_none.1 hfind p hp
        simp [hid, hc p hp] at this
    constructor
    · unfold Store.uniquePeer at hs ⊢
      simp only [List.map_append, List.map_cons, List.map_nil]
      rw [List.nodup_append]
      refine ⟨hs, List.nodup_singleton _, ?_⟩
      intro a ha hb
      simp only [List.mem_singleton] at hb
      subst hb
      simp only [List.mem_map] at ha
      obtain ⟨p, hp, hpa⟩ := ha
      exact habsent p hp hpa
    · intro p hp
      simp only [List.mem_append, List.mem_singleton] at hp
      rcases hp with hp | hp
      · exact hc p hp
      · subst hp; rfl

/-- One bind command keeps the chat-thread table duplicate-free and inside the
target hub conversation, by the lookup its handler makes, whatever the write
does (append or refuse). -/
theorem bindStepWith_keeps (put : PutPair) (hput : put.appendsOrRefuses) (base : AdminEnv J)
    (s : Store) (cmd : BindCommand)
    (hs : s.uniquePeer) (hc : s.inConversation base.TargetChatID) :
    (bindStepWith put base s cmd).uniquePeer ∧
    (bindStepWith put base s cmd).inConversation base.TargetChatID := by
  unfold bindStepWith
  rcases bind_trace_shape (Store.envWith put base s) cmd with
    h | ⟨addr, pre, post, hfree, hpre, hpost, heq⟩
  · rw [applyTraceWith_of_no_write put s _ h]
    exact ⟨hs, hc⟩
  · rw [heq, applyTraceWith_single_add put s pre post _ _ _ hpre hpost]
    exact put_keeps_uniquePeer put hput s addr base.TargetChatID _ hs hc hfree

/-- A sequence of bind commands keeps the chat-thread table duplicate-free and
inside the target hub conversation, whatever the write does (append or
refuse). -/
theorem runBindsWith_keeps (put : PutPair) (hput : put.appendsOrRefuses) (base : AdminEnv J)
    (s : Store) (cmds : List BindCommand)
    (hs : s.uniquePeer) (hc : s.inConversation base.TargetChatID) :
    (runBindsWith put base s cmds).uniquePeer ∧
    (runBindsWith put base s cmds).inConversation base.TargetChatID := by
  unfold runBindsWith
  induction cmds generalizing s with
  | nil => exact ⟨hs, hc⟩
  | cons cmd rest ih =>
    rw [List.foldl_cons]
    have h := bindStepWith_keeps put hput base s cmd hs hc
    exact ih (bindStepWith put base s cmd) h.1 h.2

/-- The write that checks nothing appends. -/
theorem appendChatThreadPair_appendsOrRefuses :
    PutPair.appendsOrRefuses Store.appendChatThreadPair :=
  fun _ _ _ _ => Or.inr rfl

/-- The write of the specification appends or refuses. -/
theorem ChatThreadAddNewPair_appendsOrRefuses :
    PutPair.appendsOrRefuses Store.ChatThreadAddNewPair := by
  intro s waChatId tgChatId tgThreadId
  unfold Store.ChatThreadAddNewPair
  split
  · exact Or.inl rfl
  · exact Or.inr rfl

/-- An unauthorized bind command is not answered. -/
theorem bind_unauthorized (w : AdminEnv J) (cmd : BindCommand)
    (hun : w.TgUpdateIsAuthorized cmd.context = false) :
    cmd.run w = { trace := [], ret := none } := by
  cases cmd <;>
    simp only [BindCommand.context] at hun <;>
    simp [BindCommand.run, SetTargetGroupChatHandler, SetTargetPrivateChatHandler, hun]

/-- An authorized bind command with an address, sent outside a topic or in
thread 0, is answered by lines 422-425 (470-473). -/
theorem bind_outside_topic (w : AdminEnv J) (cmd : BindCommand)
    (hauth : w.TgUpdateIsAuthorized cmd.context = true)
    (haddr : cmd.peerAddress w ≠ none)
    (hout : cmd.context.EffectiveMessage.IsTopicMessage = false ∨
      cmd.context.EffectiveMessage.MessageThreadId = 0) :
    cmd.run w =
      { trace := [Effect.TgReplyTextByContext "The command should be sent in a topic"],
        ret := w.TgReplyTextByContext cmd.context "The command should be sent in a topic" } := by
  cases cmd with
  | group c =>
    simp only [BindCommand.context] at hauth hout ⊢
    simp only [BindCommand.peerAddress] at haddr
    rcases hargs : c.Args with _ | ⟨a0, _ | ⟨a, rest⟩⟩
    · simp [hargs] at haddr
    · simp [hargs] at haddr
    · rcases hout with h | h <;>
        simp [BindCommand.run, SetTargetGroupChatHandler, hauth, hargs, h, replyText]
  | user c =>
    simp only [BindCommand.context] at hauth hout ⊢
    simp only [BindCommand.peerAddress] at haddr
    rcases hargs : c.Args with _ | ⟨a0, _ | ⟨a, rest⟩⟩
    · simp [hargs] at haddr
    · simp [hargs] at haddr
    · rcases hout with h | h <;>
        simp [BindCommand.run, SetTargetPrivateChatHandler, hauth, hargs, h, replyText]

/-- An authorized group bind command sent in a topic whose `GetGroupInfo`
fails is answered by lines 435-437. -/
theorem bind_group_info_failed (w : AdminEnv J) (c : Context) (a0 a : String)
    (rest : List String) (j : J) (err : String)
    (hauth : w.TgUpdateIsAuthorized c = true)
    (hargs : c.Args = a0 :: a :: rest)
    (htopic : c.EffectiveMessage.IsTopicMessage = true)
    (hthread : c.EffectiveMessage.MessageThreadId ≠ 0)
    (hinfo : w.GetGroupInfo (w.WaParseJID a).1 = (j, some err)) :
    (BindCommand.group c).run w =
      { trace := [Effect.GetGroupInfo (w.WaParseJID a).1,
                  Effect.TgReplyWithErrorByContext "Failed to get group info" err],
        ret := w.TgReplyWithErrorByContext c "Failed to get group info" err } := by
  simp [BindCommand.run, SetTargetGroupChatHandler, hauth, hargs, htopic, hthread, hinfo,
    replyError]

/-- A bind command with an address that does not pass the guards is stopped by
one of three: the authorization, the topic test, or (group command) the group
info. -/
theorem bind_stopped_cases (w : AdminEnv J) (cmd : BindCommand)
    (haddr : cmd.peerAddress w ≠ none) (hstop : cmd.passesGuards w = false) :
    w.TgUpdateIsAuthorized cmd.context = false ∨
    (cmd.context.EffectiveMessage.IsTopicMessage = false ∨
      cmd.context.EffectiveMessage.MessageThreadId = 0) ∨
    (∃ (c : Context) (a0 a : String) (rest : List String) (j : J) (err : String),
      cmd = BindCommand.group c ∧ c.Args = a0 :: a :: rest ∧
      w.GetGroupInfo (w.WaParseJID a).1 = (j, some err)) := by
  cases cmd with
  | group c =>
    simp only [BindCommand.context]
    simp only [BindCommand.peerAddress] at haddr
    simp only [BindCommand.passesGuards] at hstop
    rcases hargs : c.Args with _ | ⟨a0, _ | ⟨a, rest⟩⟩
    · simp [hargs] at haddr
    · simp [hargs] at haddr
    · simp only [hargs] at hstop
      by_cases hauth : w.TgUpdateIsAuthorized c = true
      · by_cases htopic : c.EffectiveMessage.IsTopicMessage = true
        · by_cases hthread : c.EffectiveMessage.MessageThreadId = 0
          · exact Or.inr (Or.inl (Or.inr hthread))
          · rcases hg : w.GetGroupInfo (w.WaParseJID a).1 with ⟨j, _ | err⟩
            · simp [hauth, htopic, hthread, hg] at hstop
            · exact Or.inr (Or.inr ⟨c, a0, a, rest, j, err, rfl, hargs, hg⟩)
        · exact Or.inr (Or.inl (Or.inl (by simpa using htopic)))
      · exact Or.inl (by simpa using hauth)
  | user c =>
    simp only [BindCommand.context]
    simp only [BindCommand.peerAddress] at haddr
    simp only [BindCommand.passesGuards] at hstop
    rcases hargs : c.Args with _ | ⟨a0, _ | ⟨a, rest⟩⟩
    · simp [hargs] at haddr
    · simp [hargs] at haddr
    · simp only [hargs] at hstop
      by_cases hauth : w.TgUpdateIsAuthorized c = true
      · by_cases htopic : c.EffectiveMessage.IsTopicMessage = true
        · by_cases hthread : c.EffectiveMessage.MessageThreadId = 0
          · exact Or.inr (Or.inl (Or.inr hthread))
          · simp [hauth, htopic, hthread] at hstop
        · exact Or.inr (Or.inl (Or.inl (by simpa using htopic)))
      · exact Or.inl (by simpa using hauth)

/-- C12, as stated, fails on a bind command a guard stops before the lookup:
an authorized `/settargetprivatechat 6282000` sent outside a topic (thread 0),
for an address the store reports as bound to thread 7 of the target hub
conversation, is answered "The command should be sent in a topic", not that a
mapping exists. -/
theorem bind_outside_topic_not_reported :
    (exampleAdminEnv (exampleEnv true ("", "", "", none) ("", none) none)
        (7, true, none)).ChatThreadGetTgFromWa "6282000" (-100555) = (7, true, none) ∧
    SetTargetPrivateChatHandler
        (exampleAdminEnv (exampleEnv true ("", "", "", none) ("", none) none) (7, true, none))
        (exampleCommand 42 0 ["/settargetprivatechat", "6282000"] none)
      = { trace := [Effect.TgReplyTextByContext "The command should be sent in a topic"],
          ret := none } := by
  refine ⟨rfl, rfl⟩

/-- C12 (amended): for every bind command (`SetTargetGroupChatHandler`,
`SetTargetPrivateChatHandler`) whose peer chat address is already bound to a
thread in the target hub conversation, the handler does not call
`ChatThreadAddNewPair` nor write to the store in any other way, so the store
is left as it is whatever the store's write does; when the command passes the
guards that precede the lookup (authorized, sent in a topic with a thread id
other than 0, group info retrieved) the handler reports that a topic already
exists; a command with an address that a guard stops gets the answer of that
guard: nothing when unauthorized, "The command should be sent in a topic"
outside a topic or in thread 0, the "Failed to get group info" error when
`GetGroupInfo` fails. A bind command calls `ChatThreadAddNewPair` only for its
own peer address, in the target hub conversation, after the lookup found
nothing. Consequently, starting from a store with at most one pair per peer
address, every sequence of bind commands keeps at most one pair per peer
address: by the handlers' own lookup, whatever the store's write does (append
or refuse), when every pair of the store belongs to the target hub
conversation; and with no such condition when the write refuses a duplicate
address as the specification says. -/
theorem bind_keeps_one_pair_per_peer (base : AdminEnv J) (s : Store) (cmds : List BindCommand)
    (hs : s.uniquePeer) :
    (∀ put : PutPair, put.appendsOrRefuses → s.inConversation base.TargetChatID →
      (runBindsWith put base s cmds).uniquePeer ∧
      (runBindsWith put base s cmds).inConversation base.TargetChatID) ∧
    (runBinds base s cmds).uniquePeer ∧
    (∀ (w : AdminEnv J) (cmd : BindCommand) (addr : String) (th : Int),
      cmd.peerAddress w = some addr →
      w.ChatThreadGetTgFromWa addr w.TargetChatID = (th, true, none) →
      (∀ e ∈ (cmd.run w).trace, e.isStoreWrite = false) ∧
      (cmd.passesGuards w = true →
        (cmd.run w).trace.getLast? = some (Effect.TgReplyTextByContext
            "A topic already exists in database for the given WhatsApp chat. Aborting...") ∧
        (cmd.run w).ret = w.TgReplyTextByContext cmd.context
            "A topic already exists in database for the given WhatsApp chat. Aborting...")) ∧
    (∀ (w : AdminEnv J) (cmd : BindCommand),
      cmd.peerAddress w ≠ none → cmd.passesGuards w = false →
      (w.TgUpdateIsAuthorized cmd.context = false ∧
        cmd.run w = { trace := [], ret := none }) ∨
      (w.TgUpdateIsAuthorized cmd.context = true ∧
        (cmd.context.EffectiveMessage.IsTopicMessage = false ∨
          cmd.context.EffectiveMessage.MessageThreadId = 0) ∧
        cmd.run w =
          { trace := [Effect.TgReplyTextByContext "The command should be sent in a topic"],
            ret := w.TgReplyTextByContext cmd.context
              "The command should be sent in a topic" }) ∨
      (∃ (c : Context) (a0 a : String) (rest : List String) (j : J) (err : String),
        cmd = BindCommand.group c ∧ c.Args = a0 :: a :: rest ∧
        w.GetGroupInfo (w.WaParseJID a).1 = (j, some err) ∧
        cmd.run w =
          { trace := [Effect.GetGroupInfo (w.WaParseJID a).1,
                      Effect.TgReplyWithErrorByContext "Failed to get group info" err],
            ret := w.TgReplyWithErrorByContext c "Failed to get group info" err })) ∧
    (∀ (put : PutPair) (cmd : BindCommand) (addr : String) (th : Int),
      cmd.peerAddress (Store.envWith put base s) = some addr →
      s.ChatThreadGetTgFromWa addr base.TargetChatID = (th, true, none) →
      bindStepWith put base s cmd = s) ∧
    (∀ (cmd : BindCommand) (addr : String) (th : Int),
      cmd.peerAddress (Store.env base s) = some addr →
      s.ChatThreadGetTgFromWa addr base.TargetChatID = (th, true, none) →
      bindStep base s cmd = s) ∧
    (∀ (w : AdminEnv J) (cmd : BindCommand) (waChatId : String) (tgChatId tgThreadId : Int),
      Effect.ChatThreadAddNewPair waChatId tgChatId tgThreadId ∈ (cmd.run w).trace →
      cmd.peerAddress w = some waChatId ∧ tgChatId = w.TargetChatID ∧
      tgThreadId = cmd.context.EffectiveMessage.MessageThreadId ∧
      (w.ChatThreadGetTgFromWa waChatId w.TargetChatID).2.1 = false) := by
  have hnowrite : ∀ (w : AdminEnv J) (cmd : BindCommand) (addr : String) (th : Int),
      cmd.peerAddress w = some addr →
      w.ChatThreadGetTgFromWa addr w.TargetChatID = (th, true, none) →
      ∀ e ∈ (cmd.run w).trace, e.isStoreWrite = false := by
    intro w cmd addr th haddr hfound e he
    cases hw : e.isStoreWrite with
    | false => rfl
    | true =>
      obtain ⟨addr2, haddr2, _, hfree⟩ := bind_write_only_when_free w cmd e he hw
      rw [haddr] at haddr2
      cases haddr2
      rw [hfound] at hfree
      cases hfree
  refine ⟨?_, ?_, ?_, ?_, ?_, ?_, ?_⟩
  · intro put hput hc
    exact runBindsWith_keeps put hput base s cmds hs hc
  · unfold runBinds
    induction cmds generalizing s with
    | nil => exact hs
    | cons cmd rest ih =>
      rw [List.foldl_cons]
      exact ih (bindStep base s cmd) (applyTrace_uniquePeer s _ hs)
  · intro w cmd addr th haddr hfound
    exact ⟨hnowrite w cmd addr th haddr hfound, bind_found_reports w cmd addr th haddr hfound⟩
  · intro w cmd haddr hstop
    by_cases hauth : w.TgUpdateIsAuthorized cmd.context = true
    · by_cases hout : cmd.context.EffectiveMessage.IsTopicMessage = false ∨
          cmd.context.EffectiveMessage.MessageThreadId = 0
      · exact Or.inr (Or.inl ⟨hauth, hout, bind_outside_topic w cmd hauth haddr hout⟩)
      · rcases bind_stopped_cases w cmd haddr hstop with h | h | h
        · rw [hauth] at h; cases h
        · exact absurd h hout
        · obtain ⟨c, a0, a, rest, j, err, hcmd, hargs, hinfo⟩ := h
          subst hcmd
          simp only [BindCommand.context] at hauth hout
          have htopic : c.EffectiveMessage.IsTopicMessage = true := by
            cases ht : c.EffectiveMessage.IsTopicMessage
            · exact absurd (Or.inl ht) hout
            · rfl
          have hthread : c.EffectiveMessage.MessageThreadId ≠ 0 :=
            fun h0 => hout (Or.inr h0)
          exact Or.inr (Or.inr ⟨c, a0, a, rest, j, err, rfl, hargs, hinfo,
            bind_group_info_failed w c a0 a rest j err hauth hargs htopic hthread hinfo⟩)
    · have hun : w.TgUpdateIsAuthorized cmd.context = false := by simpa using hauth
      exact Or.inl ⟨hun, bind_unauthorized w cmd hun⟩
  · intro put cmd addr th haddr hfound
    exact applyTraceWith_of_no_write put s _
      (hnowrite (Store.envWith put base s) cmd addr th haddr hfound)
  · intro cmd addr th haddr hfound
    exact applyTrace_of_no_write s _ (hnowrite (Store.env base s) cmd addr th haddr hfound)
  · intro w cmd waChatId tgChatId tgThreadId he
    obtain ⟨addr, haddr, heq, hfree⟩ := bind_write_only_when_free w cmd _ he rfl
    injection heq with h1 h2 h3
    subst h1 h2 h3
    exact ⟨haddr, rfl, rfl, hfree⟩

/-- C12 (amended), at a store that binds `6282000` to thread 7 of the hub
conversation -100555, and the sequence of a second `/settargetprivatechat
6282000` sent in thread 9 and a `/settargetgroupchat 120363@g.us` sent in
thread 11. Against a store whose write appends without any check, the second
bind of `6282000` leaves the store as it is and the sequence ends with one pair
per address; the same holds against the store of the specification. -/
theorem bind_keeps_one_pair_per_peer_witness :
    bindStepWith Store.appendChatThreadPair
      (exampleAdminEnv (exampleEnv true ("", "", "", none) ("", none) none) (0, false, none))
      { chatThreadPairs := [{ ID := "6282000", TgChatId := -100555, TgThreadId := 7 }],
        msgIdPairs := [] }
      (BindCommand.user (exampleCommand 42 9 ["/settargetprivatechat", "6282000"] none))
      = { chatThreadPairs := [{ ID := "6282000", TgChatId := -100555, TgThreadId := 7 }],
          msgIdPairs := [] } ∧
    (runBindsWith Store.appendChatThreadPair
      (exampleAdminEnv (exampleEnv true ("", "", "", none) ("", none) none) (0, false, none))
      { chatThreadPairs := [{ ID := "6282000", TgChatId := -100555, TgThreadId := 7 }],
        msgIdPairs := [] }
      [BindCommand.user (exampleCommand 42 9 ["/settargetprivatechat", "6282000"] none),
       BindCommand.group (exampleCommand 43 11 ["/settargetgroupchat", "120363@g.us"] none)]
      ).uniquePeer ∧
    (runBinds
      (exampleAdminEnv (exampleEnv true ("", "", "", none) ("", none) none) (0, false, none))
      { chatThreadPairs := [{ ID := "6282000", TgChatId := -100555, TgThreadId := 7 }],
        msgIdPairs := [] }
      [BindCommand.user (exampleCommand 42 9 ["/settargetprivatechat", "6282000"] none),
       BindCommand.group (exampleCommand 43 11 ["/settargetgroupchat", "120363@g.us"] none)]
      ).uniquePeer :=
  ⟨(bind_keeps_one_pair_per_peer
      (exampleAdminEnv (exampleEnv true ("", "", "", none) ("", none) none) (0, false, none))
      { chatThreadPairs := [{ ID := "6282000", TgChatId := -100555, TgThreadId := 7 }],
        msgIdPairs := [] }
      [] (by decide)).2.2.2.2.1 Store.appendChatThreadPair
      (BindCommand.user (exampleCommand 42 9 ["/settargetprivatechat", "6282000"] none))
      "6282000" 7 rfl rfl,
    ((bind_keeps_one_pair_per_peer
      (exampleAdminEnv (exampleEnv true ("", "", "", none) ("", none) none) (0, false, none))
      { chatThreadPairs := [{ ID := "6282000", TgChatId := -100555, TgThreadId := 7 }],
        msgIdPairs := [] }
      [BindCommand.user (exampleCommand 42 9 ["/settargetprivatechat", "6282000"] none),
       BindCommand.group (exampleCommand 43 11 ["/settargetgroupchat", "120363@g.us"] none)]
      (by decide)).1 Store.appendChatThreadPair (fun _ _ _ _ => Or.inr rfl) (by decide)).1,
    (bind_keeps_one_pair_per_peer
      (exampleAdminEnv (exampleEnv true ("", "", "", none) ("", none) none) (0, false, none))
      { chatThreadPairs := [{ ID := "6282000", TgChatId := -100555, TgThreadId := 7 }],
        msgIdPairs := [] }
      [BindCommand.user (exampleCommand 42 9 ["/settargetprivatechat", "6282000"] none),
       BindCommand.group (exampleCommand 43 11 ["/settargetgroupchat", "120363@g.us"] none)]
      (by decide)).2.1⟩

/-- Why the condition on the conversation is needed when the write checks
nothing: the store binds `6282000` to thread 3 of another hub conversation,
-100999; a `/settargetprivatechat 6282000` sent in thread 9 of the target
conversation -100555 finds nothing under that conversation, so its handler
adds a pair, and the address has two pairs. -/
theorem bind_other_conversation_duplicates :
    (Store.uniquePeer
      { chatThreadPairs := [{ ID := "6282000", TgChatId := -100999, TgThreadId := 3 }],
        msgIdPairs := [] }) ∧
    bindStepWith Store.appendChatThreadPair
      (exampleAdminEnv (exampleEnv true ("", "", "", none) ("", none) none) (0, false, none))
      { chatThreadPairs := [{ ID := "6282000", TgChatId := -100999, TgThreadId := 3 }],
        msgIdPairs := [] }
      (BindCommand.user (exampleCommand 42 9 ["/settargetprivatechat", "6282000"] none))
      = { chatThreadPairs := [{ ID := "6282000", TgChatId := -100999, TgThreadId := 3 },
                              { ID := "6282000", TgChatId := -100555, TgThreadId := 9 }],
          msgIdPairs := [] } ∧
    ¬ (Store.uniquePeer
      { chatThreadPairs := [{ ID := "6282000", TgChatId := -100999, TgThreadId := 3 },
                            { ID := "6282000", TgChatId := -100555, TgThreadId := 9 }],
        msgIdPairs := [] }) := by
  refine ⟨by decide, rfl, by decide⟩

/-! ### C13: an address argument that fails to parse -/

/-- C13 (the code at the failing input): for every authorized
`/settargetprivatechat` sent in a topic (thread id other than 0) whose argument
`WaParseJID` rejects (`ok = false`) and whose resulting address is not yet
bound, `SetTargetPrivateChatHandler` does not answer that the address is
invalid: it looks the address of the failed parse up, writes a pair for it with
`ChatThreadAddNewPair` and answers by the result of that write.
`SendToWhatsAppHandler`, on the same kind of argument (authorized, replying to
a message that is not a thread-creation marker), answers "Provided JID is not
valid" and does nothing else. -/
theorem set_target_private_binds_rejected_address (w : AdminEnv J) (c : Context)
    (a0 a : String) (rest : List String) (th : Int)
    (hauth : w.TgUpdateIsAuthorized c = true)
    (hargs : c.Args = a0 :: a :: rest)
    (hbad : (w.WaParseJID a).2 = false)
    (htopic : c.EffectiveMessage.IsTopicMessage = true)
    (hthread : c.EffectiveMessage.MessageThreadId ≠ 0)
    (hfree : w.ChatThreadGetTgFromWa (w.JIDString (w.WaParseJID a).1) w.TargetChatID
        = (th, false, none)) :
    SetTargetPrivateChatHandler w c =
      (match w.ChatThreadAddNewPair (w.JIDString (w.WaParseJID a).1) w.TargetChatID
          c.EffectiveMessage.MessageThreadId with
      | some err =>
        { trace := [Effect.ChatThreadGetTgFromWa (w.JIDString (w.WaParseJID a).1) w.TargetChatID,
                    Effect.ChatThreadAddNewPair (w.JIDString (w.WaParseJID a).1) w.TargetChatID
                      c.EffectiveMessage.MessageThreadId,
                    Effect.TgReplyWithErrorByContext
                      "Failed to add the mapping in database. Unsuccessful" err],
          ret := w.TgReplyWithErrorByContext c
                      "Failed to add the mapping in database. Unsuccessful" err }
      | none =>
        { trace := [Effect.ChatThreadGetTgFromWa (w.JIDString (w.WaParseJID a).1) w.TargetChatID,
                    Effect.ChatThreadAddNewPair (w.JIDString (w.WaParseJID a).1) w.TargetChatID
                      c.EffectiveMessage.MessageThreadId,
                    Effect.TgReplyTextByContext "Successfully mapped"],
          ret := w.TgReplyTextByContext c "Successfully mapped" }) ∧
    (∃ e ∈ (SetTargetPrivateChatHandler w c).trace, e.isStoreWrite = true) ∧
    (∀ r, c.EffectiveMessage.ReplyToMessage = some r → r.ForumTopicCreated = false →
      SendToWhatsAppHandler w c =
        { trace := [Effect.TgReplyTextByContext "Provided JID is not valid"],
          ret := w.TgReplyTextByContext c "Provided JID is not valid" }) := by
  have hrun : SetTargetPrivateChatHandler w c =
      bindPeerToThread w c [] (w.JIDString (w.WaParseJID a).1) := by
    simp [SetTargetPrivateChatHandler, hauth, hargs, htopic, hthread]
  refine ⟨?_, ?_, ?_⟩
  · rw [hrun]
    unfold bindPeerToThread
    cases ha : w.ChatThreadAddNewPair (w.JIDString (w.WaParseJID a).1) w.TargetChatID
        c.EffectiveMessage.MessageThreadId <;>
      simp [hfree, ha, replyText, replyError]
  · refine ⟨Effect.ChatThreadAddNewPair (w.JIDString (w.WaParseJID a).1) w.TargetChatID
        c.EffectiveMessage.MessageThreadId, ?_, rfl⟩
    rw [hrun]
    unfold bindPeerToThread
    cases ha : w.ChatThreadAddNewPair (w.JIDString (w.WaParseJID a).1) w.TargetChatID
        c.EffectiveMessage.MessageThreadId <;>
      simp [hfree, ha, replyText, replyError]
  · intro r hreply hmarker
    rcases hp : w.WaParseJID a with ⟨j, ok⟩
    rw [hp] at hbad
    simp only at hbad
    subst hbad
    simp [SendToWhatsAppHandler, hauth, hargs, hreply, hmarker, hp, replyText]

/-- C13, at the failing input: an authorized `/settargetprivatechat @g.us` sent
in thread 9, with an address parser that accepts digits only. The rejected
argument is looked up and bound to the thread, and "Successfully mapped" is
the answer. -/
theorem set_target_private_binds_rejected_address_witness :
    ((exampleEnvWithParser (fun s => s.toList.all Char.isDigit)).WaParseJID "@g.us").2 = false ∧
    SetTargetPrivateChatHandler
        (exampleAdminEnv (exampleEnvWithParser (fun s => s.toList.all Char.isDigit))
          (0, false, none))
        (exampleCommand 42 9 ["/settargetprivatechat", "@g.us"] none)
      = { trace := [Effect.ChatThreadGetTgFromWa "@g.us" (-100555),
                    Effect.ChatThreadAddNewPair "@g.us" (-100555) 9,
                    Effect.TgReplyTextByContext "Successfully mapped"],
          ret := none } :=
  ⟨rfl, (set_target_private_binds_rejected_address
      (exampleAdminEnv (exampleEnvWithParser (fun s => s.toList.all Char.isDigit))
        (0, false, none))
      (exampleCommand 42 9 ["/settargetprivatechat", "@g.us"] none)
      "/settargetprivatechat" "@g.us" [] 0 rfl rfl rfl rfl (by decide) rfl).1⟩

/-! ### C14: a reply whose stored chat is the bridge's own address -/

/-- C14, as stated, fails on an update the authorization guard stops: hub
message 42 replies to message 41, whose stored pair is stanza `S1`, participant
`6282000@s.whatsapp.net` and a chat address equal to the bridge's own address,
and `BridgeTelegramToWhatsAppHandler` sends nothing. -/
theorem bridge_own_chat_unauthorized_silent :
    (exampleEnv false ("S1", "6282000@s.whatsapp.net", "6281000@s.whatsapp.net", none)
        ("", none) none).StoreID = "6281000@s.whatsapp.net" ∧
    BridgeTelegramToWhatsAppHandler
        (exampleEnv false ("S1", "6282000@s.whatsapp.net", "6281000@s.whatsapp.net", none)
          ("", none) none)
        (exampleMessage 42 7 (some (exampleReplied 41 7)))
      = { trace := [], ret := none } := by
  refine ⟨rfl, rfl⟩

/-- C14 (amended): for every authorized inbound hub message that is not a
registered command and replies to a message that is not a thread-creation
marker, if the stored pair of the replied-to message has a non-empty stanza id
and a chat address equal to the bridge's own address, then
`BridgeTelegramToWhatsAppHandler` sends to the parse of the stored participant
address, with the stored stanza id as reply target and the is-reply flag true
(the participant argument is the stored participant as rewritten by lines
175-180); an update stopped by a guard sends nothing. -/
theorem bridge_own_chat_sends_to_participant (w : Env J) (c : Context) (r : RepliedMessage)
    (stanzaID participantID : String)
    (hreply : c.EffectiveMessage.ReplyToMessage = some r)
    (hmarker : r.ForumTopicCreated = false)
    (hstore : w.MsgIdGetWaFromTg c.EffectiveChatId r.MessageId
        c.EffectiveMessage.MessageThreadId = (stanzaID, participantID, w.StoreID, none))
    (hstanza : stanzaID ≠ "") :
    (w.TgUpdateIsAuthorized c = true →
      (w.commands.any fun command => command c) = false →
      BridgeTelegramToWhatsAppHandler w c =
        { trace := [Effect.MsgIdGetWaFromTg c.EffectiveChatId r.MessageId
                      c.EffectiveMessage.MessageThreadId,
                    Effect.TgSendToWhatsApp c.EffectiveMessage (some r)
                      (w.WaParseJID participantID).1
                      (statusUpdateRewrite w participantID participantID).2 stanzaID true],
          ret := w.TgSendToWhatsApp c c.EffectiveMessage (some r)
                      (w.WaParseJID participantID).1
                      (statusUpdateRewrite w participantID participantID).2 stanzaID true }) ∧
    (w.TgUpdateIsAuthorized c = false ∨ (w.commands.any fun command => command c) = true →
      BridgeTelegramToWhatsAppHandler w c = { trace := [], ret := none }) := by
  refine ⟨?_, bridge_of_stopped w c⟩
  intro hauth hcmd
  have hres : bridgeResolve w c = Except.ok
      ([Effect.MsgIdGetWaFromTg c.EffectiveChatId r.MessageId
          c.EffectiveMessage.MessageThreadId], stanzaID, participantID, participantID) := by
    simp [bridgeResolve, hreply, hmarker, hstore, hstanza]
  have hfst : (statusUpdateRewrite w participantID participantID).1 = participantID := by
    unfold statusUpdateRewrite
    split
    · rfl
    · split <;> rfl
  rw [bridge_of_resolved w c _ stanzaID participantID participantID hauth hcmd hres]
  simp [bridgeSend, hfst, hreply, isRealReply, hmarker]

/-- C14 (amended), at an authorized reply of hub message 42 to message 41,
whose stored pair is stanza `S1`, participant `6282000@s.whatsapp.net` and the
bridge's own address as chat. -/
theorem bridge_own_chat_sends_to_participant_witness :
    BridgeTelegramToWhatsAppHandler
        (exampleEnv true ("S1", "6282000@s.whatsapp.net", "6281000@s.whatsapp.net", none)
          ("", none) none)
        (exampleMessage 42 7 (some (exampleReplied 41 7)))
      = { trace := [Effect.MsgIdGetWaFromTg (-100555) 41 7,
                    Effect.TgSendToWhatsApp
                      (exampleMessage 42 7 (some (exampleReplied 41 7))).EffectiveMessage
                      (some (exampleReplied 41 7)) "6282000@s.whatsapp.net"
                      "6282000@s.whatsapp.net" "S1" true],
          ret := none } :=
  (bridge_own_chat_sends_to_participant
    (exampleEnv true ("S1", "6282000@s.whatsapp.net", "6281000@s.whatsapp.net", none)
      ("", none) none)
    (exampleMessage 42 7 (some (exampleReplied 41 7))) (exampleReplied 41 7) "S1"
    "6282000@s.whatsapp.net" rfl rfl rfl (by decide)).1 rfl rfl

/-! ### C15: the pairing loop of the session bootstrap -/

/-- The pairing loop handles the items one by one, in the order of the
channel: a `code` item gives the notification (when the hub bot is set) and
then the display, any other item gives a log line only. -/
theorem qrLoop_eq_flatMap (w : BootEnv) (events : List QRChannelItem) :
    qrLoop w events = events.flatMap (fun evt =>
      if evt.Event = "code" then
        (if w.TelegramBotIsNil = true then []
          else [BootEffect.SendMessage w.OwnerID
            "Please check your terminal and scan the QR code to login to WhatsApp"]) ++
          [BootEffect.QRTerminalGenerate evt.Code]
      else [BootEffect.LoggerInfo "Received WhatsApp login event" evt.Event]) := by
  induction events with
  | nil => rfl
  | cons evt rest ih =>
    rw [List.flatMap_cons, ← ih]
    simp only [qrLoop]
    by_cases hcode : evt.Event = "code"
    · by_cases hbot : w.TelegramBotIsNil = true <;> simp [hcode, hbot]
    · simp [hcode]

/-- The pairing loop does not depend on what the notification returns. -/
theorem qrLoop_notification_result (w : BootEnv) (f : Int → String → GoError)
    (events : List QRChannelItem) :
    qrLoop { w with SendMessage := f } events = qrLoop w events := by
  induction events with
  | nil => rfl
  | cons evt rest ih =>
    simp only [qrLoop, ih]

/-- C15, as stated, fails when the hub bot is not set
(`state.State.TelegramBot == nil`): with no durable session and a pairing
stream of the items `code` / `QR1` and `success`, `NewWhatsAppClient` displays
the code locally without attempting any notification. -/
theorem pairing_code_without_bot_not_notified :
    (exampleBootEnv true none
        [{ Event := "code", Code := "QR1" }, { Event := "success", Code := "" }]
        (some "6281000@s.whatsapp.net")).StoreID = none ∧
    NewWhatsAppClient (exampleBootEnv true none
        [{ Event := "code", Code := "QR1" }, { Event := "success", Code := "" }]
        (some "6281000@s.whatsapp.net"))
      = { trace := [BootEffect.SqlstoreNew "sqlite3" "file:wawebstore.db?foreign_keys=on",
                    BootEffect.GetFirstDevice,
                    BootEffect.NewClient,
                    BootEffect.GetQRChannel,
                    BootEffect.Connect,
                    BootEffect.QRTerminalGenerate "QR1",
                    BootEffect.LoggerInfo "Received WhatsApp login event" "success",
                    BootEffect.LoggerInfo "Successfully logged into WhatsApp"
                      "6281000@s.whatsapp.net",
                    BootEffect.LoggerSync],
          result := BootResult.returned none } := by
  refine ⟨rfl, rfl⟩

/-- C15 (amended): when no durable peer session exists and the steps before
the loop succeed (logger, session store, device, connect), for every finite
pairing event stream `NewWhatsAppClient` processes the events in order until
the stream closes; for each `code` event it attempts the administrator
notification, provided the hub bot is set, before displaying the code locally;
what the notification returns changes nothing (a failed notification neither
stops the loop nor skips the display); an event other than `code` gives a log
line, no notification and no display. After the stream is closed the function
logs the success and returns nil when the pairing stored a session identity,
and panics on the nil identity of line 124 when it did not. -/
theorem pairing_loop_notifies_then_displays (w : BootEnv)
    (hlogger : (if w.WhatsmeowDebugMode then w.NewDevelopment else w.ProductionBuild) = none)
    (hstore : w.SqlstoreNew = none)
    (hdevice : w.GetFirstDevice = none)
    (hnil : w.StoreID = none)
    (hconnect : w.Connect = none) :
    (NewWhatsAppClient w).trace =
      [BootEffect.SqlstoreNew w.LoginDatabaseType w.LoginDatabaseURL,
        BootEffect.GetFirstDevice,
        BootEffect.NewClient,
        BootEffect.GetQRChannel,
        BootEffect.Connect] ++
      w.qrChan.flatMap (fun evt =>
        if evt.Event = "code" then
          (if w.TelegramBotIsNil = true then []
            else [BootEffect.SendMessage w.OwnerID
              "Please check your terminal and scan the QR code to login to WhatsApp"]) ++
            [BootEffect.QRTerminalGenerate evt.Code]
        else [BootEffect.LoggerInfo "Received WhatsApp login event" evt.Event]) ++
      (match w.StoreIDAfterPairing with
        | some jid =>
          [BootEffect.LoggerInfo "Successfully logged into WhatsApp" jid, BootEffect.LoggerSync]
        | none => [BootEffect.LoggerSync]) ∧
    (NewWhatsAppClient w).result =
      (match w.StoreIDAfterPairing with
        | some _ => BootResult.returned none
        | none => BootResult.panicked
            "runtime error: invalid memory address or nil pointer dereference") ∧
    (∀ f : Int → String → GoError,
      NewWhatsAppClient { w with SendMessage := f } = NewWhatsAppClient w) := by
  refine ⟨?_, ?_, ?_⟩
  · rw [← qrLoop_eq_flatMap]
    unfold NewWhatsAppClient
    cases hid : w.StoreIDAfterPairing <;>
      simp [hlogger, hstore, hdevice, hnil, hconnect, logSuccess, hid]
  · unfold NewWhatsAppClient
    cases hid : w.StoreIDAfterPairing <;>
      simp [hlogger, hstore, hdevice, hnil, hconnect, logSuccess, hid]
  · intro f
    unfold NewWhatsAppClient
    simp only [qrLoop_notification_result]

/-- C15 (amended), at two streams, with the hub bot set and every notification
failing with `bot blocked`. On `code` / `QR1`, `code` / `QR2`, `success` each
code is notified, then displayed, in order, and the function returns nil. On
`code` / `QR1`, `timeout`, closed without a pairing, the code is notified and
displayed, the timeout is logged, and the function panics. -/
theorem pairing_loop_notifies_then_displays_witness :
    ((NewWhatsAppClient (exampleBootEnv false (some "bot blocked")
        [{ Event := "code", Code := "QR1" }, { Event := "code", Code := "QR2" },
         { Event := "success", Code := "" }] (some "6281000@s.whatsapp.net"))).trace
      = [BootEffect.SqlstoreNew "sqlite3" "file:wawebstore.db?foreign_keys=on",
         BootEffect.GetFirstDevice,
         BootEffect.NewClient,
         BootEffect.GetQRChannel,
         BootEffect.Connect,
         BootEffect.SendMessage 1001
           "Please check your terminal and scan the QR code to login to WhatsApp",
         BootEffect.QRTerminalGenerate "QR1",
         BootEffect.SendMessage 1001
           "Please check your terminal and scan the QR code to login to WhatsApp",
         BootEffect.QRTerminalGenerate "QR2",
         BootEffect.LoggerInfo "Received WhatsApp login event" "success",
         BootEffect.LoggerInfo "Successfully logged into WhatsApp" "6281000@s.whatsapp.net",
         BootEffect.LoggerSync] ∧
      (NewWhatsAppClient (exampleBootEnv false (some "bot blocked")
        [{ Event := "code", Code := "QR1" }, { Event := "code", Code := "QR2" },
         { Event := "success", Code := "" }] (some "6281000@s.whatsapp.net"))).result
      = BootResult.returned none) ∧
    ((NewWhatsAppClient (exampleBootEnv false (some "bot blocked")
        [{ Event := "code", Code := "QR1" }, { Event := "timeout", Code := "" }] none)).trace
      = [BootEffect.SqlstoreNew "sqlite3" "file:wawebstore.db?foreign_keys=on",
         BootEffect.GetFirstDevice,
         BootEffect.NewClient,
         BootEffect.GetQRChannel,
         BootEffect.Connect,
         BootEffect.SendMessage 1001
           "Please check your terminal and scan the QR code to login to WhatsApp",
         BootEffect.QRTerminalGenerate "QR1",
         BootEffect.LoggerInfo "Received WhatsApp login event" "timeout",
         BootEffect.LoggerSync] ∧
      (NewWhatsAppClient (exampleBootEnv false (some "bot blocked")
        [{ Event := "code", Code := "QR1" }, { Event := "timeout", Code := "" }] none)).result
      = BootResult.panicked "runtime error: invalid memory address or nil pointer dereference") :=
  ⟨⟨(pairing_loop_notifies_then_displays
        (exampleBootEnv false (some "bot blocked")
          [{ Event := "code", Code := "QR1" }, { Event := "code", Code := "QR2" },
           { Event := "success", Code := "" }] (some "6281000@s.whatsapp.net"))
        rfl rfl rfl rfl rfl).1,
      (pairing_loop_notifies_then_displays
        (exampleBootEnv false (some "bot blocked")
          [{ Event := "code", Code := "QR1" }, { Event := "code", Code := "QR2" },
           { Event := "success", Code := "" }] (some "6281000@s.whatsapp.net"))
        rfl rfl rfl rfl rfl).2.1⟩,
    ⟨(pairing_loop_notifies_then_displays
        (exampleBootEnv false (some "bot blocked")
          [{ Event := "code", Code := "QR1" }, { Event := "timeout", Code := "" }] none)
        rfl rfl rfl rfl rfl).1,
      (pairing_loop_notifies_then_displays
        (exampleBootEnv false (some "bot blocked")
          [{ Event := "code", Code := "QR1" }, { Event := "timeout", Code := "" }] none)
        rfl rfl rfl rfl rfl).2.1⟩⟩

/-! ### C16: unauthorized updates -/

/-- C16: for every handler `AddTelegramHandlers` registers (the bridge handler,
the fifteen command handlers and the revoke callback handler), if the update is
not authorized the handler returns nil having made no call at all (no store
read or write, no peer-platform call, no hub reply); hence on any two
unauthorized updates, whatever their content, it does the same. -/
theorem unauthorized_update_does_nothing (w : AdminEnv J) (c : Context) (h : HandlerId)
    (hun : w.TgUpdateIsAuthorized c = false) :
    HandlerId.run w c h = { trace := [], ret := none } ∧
    (∀ e ∈ (HandlerId.run w c h).trace,
      e.isStoreRead = false ∧ e.isStoreWrite = false ∧ e.isPeerCall = false ∧
      e.isHubCall = false) ∧
    (∀ c2 : Context, w.TgUpdateIsAuthorized c2 = false →
      HandlerId.run w c2 h = HandlerId.run w c h) := by
  have hrun : ∀ c1 : Context, w.TgUpdateIsAuthorized c1 = false →
      HandlerId.run w c1 h = { trace := [], ret := none } := by
    intro c1 h1
    cases h <;>
      simp [HandlerId.run, BridgeTelegramToWhatsAppHandler, StartCommandHandler,
        GetWhatsAppGroupsHandler, FindContactHandler, RevokeCommandHandler, SyncContactsHandler,
        ClearMessageIdPairsHistoryHandler, RestartWhatsAppConnectionHandler,
        JoinInviteLinkHandler, SetTargetGroupChatHandler, SetTargetPrivateChatHandler,
        GetProfilePictureHandler, UpdateAndRestartHandler, SyncTopicNamesHandler,
        SendToWhatsAppHandler, HelpCommandHandler, RevokeCallbackHandler, h1]
  refine ⟨hrun c hun, ?_, ?_⟩
  · rw [hrun c hun]
    intro e he
    cases he
  · intro c2 h2
    rw [hrun c hun, hrun c2 h2]

/-- C16, at an unauthorized `/clearpairhistory`: nothing is deleted and nothing
is answered. -/
theorem unauthorized_update_does_nothing_witness :
    HandlerId.run
        (exampleAdminEnv (exampleEnv false ("", "", "", none) ("", none) none) (0, false, none))
        (exampleCommand 42 0 ["/clearpairhistory"] none) HandlerId.clearpairhistory
      = { trace := [], ret := none } :=
  (unauthorized_update_does_nothing
    (exampleAdminEnv (exampleEnv false ("", "", "", none) ("", none) none) (0, false, none))
    (exampleCommand 42 0 ["/clearpairhistory"] none) HandlerId.clearpairhistory rfl).1

end Watg
